import Mathlib

/-!
Bootstrap controller policy (`pkg/cmd/server/bootstrappolicy/controller_policy.go`)

A shallow embedding of the controller role registry: the two package-level
slices `controllerRoles` and `controllerRoleBindings`, the validating
constructor `addControllerRole`, the registration script `init`, and the two
accessors `ControllerRoles` and `ControllerRoleBindings`.

Go strings are byte sequences.  Here a string is the sequence of its
characters.  `saRolePrefix` is pure ASCII, so on well-formed UTF-8 names the
byte-wise test `strings.HasPrefix(name, saRolePrefix)` and the byte-wise slice
`name[len(saRolePrefix):]` taken after that test agree with the
character-wise ones used below.
-/

namespace BootstrapPolicy

/-! ## Strings -/

/-- Go `strings.HasPrefix(s, p)`: `len(s) >= len(p) && s[0:len(p)] == p`. -/
def hasPrefix (s p : String) : Bool :=
  decide (p.length ≤ s.length) && (s.data.take p.length == p.data)

/-- Go slice expression `s[n:]`; it panics (here `none`) when `n > len(s)`. -/
def sliceFrom (s : String) (n : Nat) : Option String :=
  if n ≤ s.length then some (String.mk (s.data.drop n)) else none

/-- The constant `saRolePrefix`. -/
def saRolePrefix : String := "system:openshift:controller:"

/-! ## Data model (the parts of `rbac` and `metav1` the file touches) -/

/-- Go `map[string]string` as an association list with unique keys. -/
abbrev StringMap := List (String × String)

/-- Map read `m[k]`. -/
def mapGet : StringMap → String → Option String
  | [], _ => none
  | (k, v) :: m, key => if k = key then some v else mapGet m key

/-- Map write `m[k] = v`: overwrite the entry for `k`, or add one. -/
def mapSet : StringMap → String → String → StringMap
  | [], key, val => [(key, val)]
  | (k, v) :: m, key, val =>
    if k = key then (k, val) :: m else (k, v) :: mapSet m key val

/-- The `rbac.PolicyRule` value. -/
structure PolicyRule where
  Verbs : List String
  APIGroups : List String
  Resources : List String
  ResourceNames : List String
  NonResourceURLs : List String
deriving DecidableEq, Repr

/-- The `rbac.ClusterRole` value: `ObjectMeta.Name`, `ObjectMeta.Annotations`
(`none` is the nil map) and `Rules`. -/
structure ClusterRole where
  Name : String
  Annotations : Option StringMap
  Rules : List PolicyRule
deriving DecidableEq, Repr

/-- The `rbac.Subject` value. -/
structure Subject where
  Kind : String
  APIGroup : String
  Name : String
  Namespace : String
deriving DecidableEq, Repr

/-- The `rbac.RoleRef` value. -/
structure RoleRef where
  APIGroup : String
  Kind : String
  Name : String
deriving DecidableEq, Repr

/-- The `rbac.ClusterRoleBinding` value: `ObjectMeta.Name`, `Subjects`, `RoleRef`. -/
structure ClusterRoleBinding where
  Name : String
  Subjects : List Subject
  RoleRef : RoleRef
deriving DecidableEq, Repr

/-! ## The `rbac` builders used by the file -/

/-- Modelled from the spec: the builder `rbac.NewRule(verbs...)` lives in the
vendored `rbac` helpers, not in this file.  A Rule is a set of verbs, API
groups and resource types; the builder starts with the verbs only. -/
def NewRule (verbs : List String) : PolicyRule :=
  { Verbs := verbs, APIGroups := [], Resources := [], ResourceNames := [], NonResourceURLs := [] }

/-- Modelled from the spec: builder method `.Groups(groups...)` of the vendored
`rbac` helpers; it appends API groups to the rule under construction. -/
def Groups (r : PolicyRule) (groups : List String) : PolicyRule :=
  { r with APIGroups := r.APIGroups ++ groups }

/-- Modelled from the spec: builder method `.Resources(resources...)` of the
vendored `rbac` helpers; it appends resource types to the rule under
construction. -/
def Resources (r : PolicyRule) (resources : List String) : PolicyRule :=
  { r with Resources := r.Resources ++ resources }

/-- Modelled from the spec: builder method `.RuleOrDie()` of the vendored
`rbac` helpers.  It panics (here `none`) on an incomplete rule: no verb; a
non-resource rule that also names groups, resources or resource names; a
resource rule without API groups; or a rule with neither resources nor
non-resource URLs. -/
def RuleOrDie (r : PolicyRule) : Option PolicyRule :=
  if r.Verbs.length = 0 then none
  else if 0 < r.NonResourceURLs.length then
    if r.APIGroups.length ≠ 0 ∨ r.Resources.length ≠ 0 ∨ r.ResourceNames.length ≠ 0 then none
    else some r
  else if 0 < r.Resources.length then
    if r.APIGroups.length = 0 then none else some r
  else none

/-- Modelled from the spec: `rbac.NewClusterBinding(clusterRoleName)` of the
vendored `rbac` helpers: a binding named after the role, referring to the
cluster role of that name, with no subject yet. -/
def NewClusterBinding (clusterRoleName : String) : ClusterRoleBinding :=
  { Name := clusterRoleName
    Subjects := []
    RoleRef := { APIGroup := "rbac.authorization.k8s.io", Kind := "ClusterRole", Name := clusterRoleName } }

/-- Modelled from the spec: builder method `.SAs(namespace, names...)` of the
vendored `rbac` helpers: one service-account subject per name, in the given
namespace, appended in order. -/
def SAs (b : ClusterRoleBinding) (ns : String) (serviceAccountNames : List String) :
    ClusterRoleBinding :=
  let subjects : List Subject := List.map
    (fun saName => { Kind := "ServiceAccount", APIGroup := "", Name := saName, Namespace := ns })
    serviceAccountNames
  { b with Subjects := b.Subjects ++ subjects }

/-- Modelled from the spec: builder method `.BindingOrDie()` of the vendored
`rbac` helpers; it panics (here `none`) when the binding has no subject. -/
def BindingOrDie (b : ClusterRoleBinding) : Option ClusterRoleBinding :=
  if b.Subjects.length = 0 then none else some b

/-! ## Package constants declared outside this file -/

/-- The identifiers of package `bootstrappolicy` (and of `authorizationapi`)
that the file uses but does not declare.  Their values are parameters of the
embedding. -/
structure Constants where
  DefaultOpenShiftInfraNamespace : String
  AdminRoleName : String
  roleSystemOnly : String
  roleIsSystemOnly : String
  InfraBuildControllerServiceAccountName : String
  InfraBuildConfigChangeControllerServiceAccountName : String
  InfraDeployerControllerServiceAccountName : String
  InfraDeploymentConfigControllerServiceAccountName : String
  InfraDeploymentTriggerControllerServiceAccountName : String
  InfraTemplateInstanceControllerServiceAccountName : String
  InfraOriginNamespaceServiceAccountName : String
  InfraServiceAccountControllerServiceAccountName : String
  InfraServiceAccountPullSecretsControllerServiceAccountName : String
  InfraImageTriggerControllerServiceAccountName : String
  InfraServiceServingCertServiceAccountName : String
  InfraImageImportControllerServiceAccountName : String
  InfraSDNControllerServiceAccountName : String
  InfraClusterQuotaReconciliationControllerServiceAccountName : String
  InfraUnidlingControllerServiceAccountName : String
  InfraServiceIngressIPControllerServiceAccountName : String
  InfraPersistentVolumeRecyclerControllerServiceAccountName : String
  InfraResourceQuotaControllerServiceAccountName : String
  kapiGroup : String
  kAuthzGroup : String
  buildGroup : String
  legacyBuildGroup : String
  imageGroup : String
  legacyImageGroup : String
  deployGroup : String
  legacyDeployGroup : String
  templateGroup : String
  extensionsGroup : String
  appsGroup : String
  batchGroup : String
  networkGroup : String
  legacyNetworkGroup : String
  quotaGroup : String
  legacyQuotaGroup : String
  SourceBuildResource : String
  DockerBuildResource : String
  OptimizedDockerBuildResource : String
  JenkinsPipelineBuildResource : String
deriving Repr

/-! ## Registry state and `addControllerRole` -/

/-- The two package-level slices. -/
structure Registry where
  controllerRoles : List ClusterRole
  controllerRoleBindings : List ClusterRoleBinding
deriving DecidableEq, Repr

/-- The registry before `init` runs: both slices empty. -/
def Registry.empty : Registry :=
  { controllerRoles := [], controllerRoleBindings := [] }

/-- Ways a call can abort the process. -/
inductive Failure where
  /-- Abort by `glog.Fatalf` with "role %q must start with %q". -/
  | invalidRoleName (name : String)
  /-- Abort by `glog.Fatalf` with "role %q was already registered". -/
  | duplicateRoleName (name : String)
  /-- A run-time panic: slice bounds, `BindingOrDie`, `RuleOrDie`. -/
  | runtimePanic
deriving DecidableEq, Repr

/-- Outcome of a registry operation: the new registry, or the kind of abort
together with the registry as it stood when the process aborted. -/
abbrev Outcome := Except (Failure × Registry) Registry

/-- The loop `for _, existingRole := range controllerRoles` of
`addControllerRole`: does some registered role carry this name? -/
def alreadyRegistered (name : String) : List ClusterRole → Bool
  | [] => false
  | existingRole :: rest =>
    if name = existingRole.Name then true else alreadyRegistered name rest

/-- Lines 34-37 of `addControllerRole`: make the annotation map non-nil and
set `roleSystemOnly` to `roleIsSystemOnly`. -/
def tagSystemOnly (c : Constants) (role : ClusterRole) : ClusterRole :=
  let annotations := match role.Annotations with
    | none => ([] : StringMap)
    | some m => m
  { role with Annotations := some (mapSet annotations c.roleSystemOnly c.roleIsSystemOnly) }

/-- The function `addControllerRole`. -/
def addControllerRole (c : Constants) (role : ClusterRole) (s : Registry) : Outcome :=
  if !hasPrefix role.Name saRolePrefix then
    .error (.invalidRoleName role.Name, s)
  else if alreadyRegistered role.Name s.controllerRoles then
    .error (.duplicateRoleName role.Name, s)
  else
    let role := tagSystemOnly c role
    let s1 : Registry := { s with controllerRoles := s.controllerRoles ++ [role] }
    match sliceFrom role.Name saRolePrefix.length with
    | none => .error (.runtimePanic, s1)
    | some saName =>
      match BindingOrDie (SAs (NewClusterBinding role.Name) c.DefaultOpenShiftInfraNamespace [saName]) with
      | none => .error (.runtimePanic, s1)
      | some binding =>
        .ok { s1 with controllerRoleBindings := s1.controllerRoleBindings ++ [binding] }

/-- The accessor `ControllerRoles`. -/
def ControllerRoles (s : Registry) : List ClusterRole := s.controllerRoles

/-- The accessor `ControllerRoleBindings`. -/
def ControllerRoleBindings (s : Registry) : List ClusterRoleBinding := s.controllerRoleBindings

/-! ## The registration script `init` -/

/-- Evaluation of the elements of a `[]rbac.PolicyRule{...}` literal, left to
right: a panic in any `RuleOrDie` call aborts the whole literal. -/
def evalRules : List (Option PolicyRule) → Option (List PolicyRule)
  | [] => some []
  | r :: rest =>
    match r with
    | none => none
    | some rule =>
      match evalRules rest with
      | none => none
      | some rules => some (rule :: rules)

/-- The function `eventsRule`. -/
def eventsRule (c : Constants) : Option PolicyRule :=
  RuleOrDie (Resources (Groups (NewRule ["create", "update", "patch"]) [c.kapiGroup]) ["events"])

/-- The two kinds of statement in the body of `init`. -/
inductive Stmt where
  /-- The call `addControllerRole(rbac.ClusterRole` with `ObjectMeta.Name` and `Rules` set. -/
  | addControllerRole (name : String) (rules : List (Option PolicyRule))
  /-- The statement `controllerRoleBindings = append(controllerRoleBindings, binding)`. -/
  | appendBinding (binding : Option ClusterRoleBinding)

/-- Execution of one statement of `init`: the argument is evaluated first (a
panic there leaves the registry as it was), then the call or append runs. -/
def Stmt.exec (c : Constants) : Stmt → Registry → Outcome
  | .addControllerRole name rules, s =>
    match evalRules rules with
    | none => .error (.runtimePanic, s)
    | some rs => BootstrapPolicy.addControllerRole c { Name := name, Annotations := none, Rules := rs } s
  | .appendBinding binding, s =>
    match binding with
    | none => .error (.runtimePanic, s)
    | some b => .ok { s with controllerRoleBindings := s.controllerRoleBindings ++ [b] }

/-- Sequential execution of statements; the first abort ends the run. -/
def runStmts (c : Constants) : List Stmt → Registry → Outcome
  | [], s => .ok s
  | st :: rest, s =>
    match st.exec c s with
    | .error e => .error e
    | .ok s1 => runStmts c rest s1

/-- The body of `init`, statement by statement, in source order. -/
def initScript (c : Constants) : List Stmt :=
  [
    .addControllerRole (saRolePrefix ++ c.InfraBuildControllerServiceAccountName)
      [
        RuleOrDie (Resources (Groups (NewRule ["get", "list", "watch", "patch", "update", "delete"]) [c.buildGroup, c.legacyBuildGroup]) ["builds"]),
        RuleOrDie (Resources (Groups (NewRule ["get"]) [c.buildGroup, c.legacyBuildGroup]) ["buildconfigs"]),
        RuleOrDie (Resources (Groups (NewRule ["create"]) [c.buildGroup, c.legacyBuildGroup]) ["builds/optimizeddocker", "builds/docker", "builds/source", "builds/custom", "builds/jenkinspipeline"]),
        RuleOrDie (Resources (Groups (NewRule ["get", "list"]) [c.imageGroup, c.legacyImageGroup]) ["imagestreams"]),
        RuleOrDie (Resources (Groups (NewRule ["get", "list"]) [c.kapiGroup]) ["secrets"]),
        RuleOrDie (Resources (Groups (NewRule ["get", "list"]) [c.kapiGroup]) ["configmaps"]),
        RuleOrDie (Resources (Groups (NewRule ["get", "list", "create", "delete"]) [c.kapiGroup]) ["pods"]),
        RuleOrDie (Resources (Groups (NewRule ["get"]) [c.kapiGroup]) ["namespaces"]),
        eventsRule c ],
    .addControllerRole (saRolePrefix ++ c.InfraBuildConfigChangeControllerServiceAccountName)
      [
        RuleOrDie (Resources (Groups (NewRule ["get", "list", "watch"]) [c.buildGroup, c.legacyBuildGroup]) ["buildconfigs"]),
        RuleOrDie (Resources (Groups (NewRule ["create"]) [c.buildGroup, c.legacyBuildGroup]) ["buildconfigs/instantiate"]),
        eventsRule c ],
    .addControllerRole (saRolePrefix ++ c.InfraDeployerControllerServiceAccountName)
      [
        RuleOrDie (Resources (Groups (NewRule ["create", "get", "list", "watch", "patch", "delete"]) [c.kapiGroup]) ["pods"]),
        RuleOrDie (Resources (Groups (NewRule ["delete"]) [c.kapiGroup]) ["replicationcontrollers"]),
        RuleOrDie (Resources (Groups (NewRule ["get", "list", "watch", "update"]) [c.kapiGroup]) ["replicationcontrollers"]),
        eventsRule c ],
    .addControllerRole (saRolePrefix ++ c.InfraDeploymentConfigControllerServiceAccountName)
      [
        RuleOrDie (Resources (Groups (NewRule ["create", "get", "list", "watch", "update", "patch", "delete"]) [c.kapiGroup]) ["replicationcontrollers"]),
        RuleOrDie (Resources (Groups (NewRule ["update"]) [c.deployGroup, c.legacyDeployGroup]) ["deploymentconfigs/status"]),
        RuleOrDie (Resources (Groups (NewRule ["get", "list", "watch"]) [c.deployGroup, c.legacyDeployGroup]) ["deploymentconfigs"]),
        eventsRule c ],
    .addControllerRole (saRolePrefix ++ c.InfraDeploymentTriggerControllerServiceAccountName)
      [
        RuleOrDie (Resources (Groups (NewRule ["get", "list", "watch"]) [c.kapiGroup]) ["replicationcontrollers"]),
        RuleOrDie (Resources (Groups (NewRule ["get", "list", "watch"]) [c.deployGroup, c.legacyDeployGroup]) ["deploymentconfigs"]),
        RuleOrDie (Resources (Groups (NewRule ["get", "list", "watch"]) [c.imageGroup, c.legacyImageGroup]) ["imagestreams"]),
        RuleOrDie (Resources (Groups (NewRule ["create"]) [c.deployGroup, c.legacyDeployGroup]) ["deploymentconfigs/instantiate"]),
        eventsRule c ],
    .addControllerRole (saRolePrefix ++ c.InfraTemplateInstanceControllerServiceAccountName)
      [
        RuleOrDie (Resources (Groups (NewRule ["create"]) [c.kAuthzGroup]) ["subjectaccessreviews"]),
        RuleOrDie (Resources (Groups (NewRule ["get", "list", "watch"]) [c.templateGroup]) ["subjectaccessreviews"]),
        RuleOrDie (Resources (Groups (NewRule ["update"]) [c.templateGroup]) ["templateinstances/status"]) ],
    .appendBinding
      (BindingOrDie (SAs (NewClusterBinding c.AdminRoleName) c.DefaultOpenShiftInfraNamespace [c.InfraTemplateInstanceControllerServiceAccountName])),
    .addControllerRole (saRolePrefix ++ c.InfraOriginNamespaceServiceAccountName)
      [
        RuleOrDie (Resources (Groups (NewRule ["get", "list", "watch"]) [c.kapiGroup]) ["namespaces"]),
        RuleOrDie (Resources (Groups (NewRule ["update"]) [c.kapiGroup]) ["namespaces/finalize", "namespaces/status"]),
        eventsRule c ],
    .addControllerRole (saRolePrefix ++ c.InfraServiceAccountControllerServiceAccountName)
      [
        RuleOrDie (Resources (Groups (NewRule ["get", "list", "watch", "create", "update", "patch", "delete"]) [c.kapiGroup]) ["serviceaccounts"]),
        eventsRule c ],
    .addControllerRole (saRolePrefix ++ c.InfraServiceAccountPullSecretsControllerServiceAccountName)
      [
        RuleOrDie (Resources (Groups (NewRule ["get", "list", "watch", "create", "update"]) [c.kapiGroup]) ["serviceaccounts"]),
        RuleOrDie (Resources (Groups (NewRule ["get", "list", "watch", "create", "update", "patch", "delete"]) [c.kapiGroup]) ["secrets"]),
        RuleOrDie (Resources (Groups (NewRule ["get", "list", "watch"]) [c.kapiGroup]) ["services"]),
        eventsRule c ],
    .addControllerRole (saRolePrefix ++ c.InfraImageTriggerControllerServiceAccountName)
      [
        RuleOrDie (Resources (Groups (NewRule ["list", "watch"]) [c.imageGroup, c.legacyImageGroup]) ["imagestreams"]),
        RuleOrDie (Resources (Groups (NewRule ["get", "update"]) [c.extensionsGroup]) ["daemonsets"]),
        RuleOrDie (Resources (Groups (NewRule ["get", "update"]) [c.extensionsGroup, c.appsGroup]) ["deployments"]),
        RuleOrDie (Resources (Groups (NewRule ["get", "update"]) [c.appsGroup]) ["statefulsets"]),
        RuleOrDie (Resources (Groups (NewRule ["get", "update"]) [c.batchGroup]) ["cronjobs"]),
        RuleOrDie (Resources (Groups (NewRule ["get", "update"]) [c.deployGroup, c.legacyDeployGroup]) ["deploymentconfigs"]),
        RuleOrDie (Resources (Groups (NewRule ["create"]) [c.buildGroup, c.legacyBuildGroup]) ["buildconfigs/instantiate"]),
        RuleOrDie (Resources (Groups (NewRule ["create"]) [c.buildGroup, c.legacyBuildGroup]) [c.SourceBuildResource, c.DockerBuildResource, c.OptimizedDockerBuildResource, c.JenkinsPipelineBuildResource]),
        eventsRule c ],
    .addControllerRole (saRolePrefix ++ c.InfraServiceServingCertServiceAccountName)
      [
        RuleOrDie (Resources (Groups (NewRule ["list", "watch", "update"]) [c.kapiGroup]) ["services"]),
        RuleOrDie (Resources (Groups (NewRule ["get", "list", "watch", "create", "update"]) [c.kapiGroup]) ["secrets"]),
        eventsRule c ],
    .addControllerRole (saRolePrefix ++ c.InfraImageImportControllerServiceAccountName)
      [
        RuleOrDie (Resources (Groups (NewRule ["get", "list", "watch", "create", "update"]) [c.imageGroup, c.legacyImageGroup]) ["imagestreams"]),
        RuleOrDie (Resources (Groups (NewRule ["get", "list", "watch", "create", "update", "patch", "delete"]) [c.imageGroup, c.legacyImageGroup]) ["images"]),
        RuleOrDie (Resources (Groups (NewRule ["create"]) [c.imageGroup, c.legacyImageGroup]) ["imagestreamimports"]),
        eventsRule c ],
    .addControllerRole (saRolePrefix ++ c.InfraSDNControllerServiceAccountName)
      [
        RuleOrDie (Resources (Groups (NewRule ["get", "create", "update"]) [c.networkGroup, c.legacyNetworkGroup]) ["clusternetworks"]),
        RuleOrDie (Resources (Groups (NewRule ["get", "list"]) [c.networkGroup, c.legacyNetworkGroup]) ["egressnetworkpolicies"]),
        RuleOrDie (Resources (Groups (NewRule ["get", "list", "create", "delete"]) [c.networkGroup, c.legacyNetworkGroup]) ["hostsubnets"]),
        RuleOrDie (Resources (Groups (NewRule ["get", "list", "create", "update", "delete"]) [c.networkGroup, c.legacyNetworkGroup]) ["netnamespaces"]),
        RuleOrDie (Resources (Groups (NewRule ["get", "list"]) [c.kapiGroup]) ["pods"]),
        RuleOrDie (Resources (Groups (NewRule ["list"]) [c.kapiGroup]) ["services"]),
        RuleOrDie (Resources (Groups (NewRule ["list"]) [c.kapiGroup]) ["namespaces"]),
        RuleOrDie (Resources (Groups (NewRule ["get"]) [c.kapiGroup]) ["nodes"]),
        RuleOrDie (Resources (Groups (NewRule ["update"]) [c.kapiGroup]) ["nodes/status"]),
        RuleOrDie (Resources (Groups (NewRule ["list"]) [c.extensionsGroup]) ["networkPolicies"]),
        eventsRule c ],
    .addControllerRole (saRolePrefix ++ c.InfraClusterQuotaReconciliationControllerServiceAccountName)
      [
        RuleOrDie (Resources (Groups (NewRule ["get", "list"]) [c.kapiGroup]) ["configMaps"]),
        RuleOrDie (Resources (Groups (NewRule ["get", "list"]) [c.kapiGroup]) ["secrets"]),
        RuleOrDie (Resources (Groups (NewRule ["update"]) [c.quotaGroup, c.legacyQuotaGroup]) ["clusterresourcequotas/status"]),
        eventsRule c ],
    .addControllerRole (saRolePrefix ++ c.InfraUnidlingControllerServiceAccountName)
      [
        RuleOrDie (Resources (Groups (NewRule ["get", "update"]) [c.kapiGroup]) ["replicationcontrollers/scale", "endpoints"]),
        RuleOrDie (Resources (Groups (NewRule ["get", "update", "patch"]) [c.kapiGroup]) ["replicationcontrollers"]),
        RuleOrDie (Resources (Groups (NewRule ["get", "update", "patch"]) [c.deployGroup, c.legacyDeployGroup]) ["deploymentconfigs"]),
        RuleOrDie (Resources (Groups (NewRule ["get", "update"]) [c.extensionsGroup, c.appsGroup]) ["replicasets/scale", "deployments/scale"]),
        RuleOrDie (Resources (Groups (NewRule ["get", "update"]) [c.deployGroup, c.legacyDeployGroup]) ["deploymentconfigs/scale"]),
        RuleOrDie (Resources (Groups (NewRule ["watch", "list"]) [c.kapiGroup]) ["events"]),
        eventsRule c ],
    .addControllerRole (saRolePrefix ++ c.InfraServiceIngressIPControllerServiceAccountName)
      [
        RuleOrDie (Resources (Groups (NewRule ["list", "watch", "update"]) [c.kapiGroup]) ["services"]),
        RuleOrDie (Resources (Groups (NewRule ["update"]) [c.kapiGroup]) ["services/status"]),
        eventsRule c ],
    .addControllerRole (saRolePrefix ++ c.InfraPersistentVolumeRecyclerControllerServiceAccountName)
      [
        RuleOrDie (Resources (Groups (NewRule ["get", "update", "create", "delete", "list", "watch"]) [c.kapiGroup]) ["persistentvolumes"]),
        RuleOrDie (Resources (Groups (NewRule ["update"]) [c.kapiGroup]) ["persistentvolumes/status"]),
        RuleOrDie (Resources (Groups (NewRule ["get", "update", "list", "watch"]) [c.kapiGroup]) ["persistentvolumeclaims"]),
        RuleOrDie (Resources (Groups (NewRule ["update"]) [c.kapiGroup]) ["persistentvolumeclaims/status"]),
        RuleOrDie (Resources (Groups (NewRule ["get", "create", "delete", "list", "watch"]) [c.kapiGroup]) ["pods"]),
        eventsRule c ],
    .addControllerRole (saRolePrefix ++ c.InfraResourceQuotaControllerServiceAccountName)
      [
        RuleOrDie (Resources (Groups (NewRule ["update"]) [c.kapiGroup]) ["resourcequotas/status"]),
        RuleOrDie (Resources (Groups (NewRule ["list"]) [c.kapiGroup]) ["resourcequotas"]),
        RuleOrDie (Resources (Groups (NewRule ["list"]) [c.kapiGroup]) ["services"]),
        RuleOrDie (Resources (Groups (NewRule ["list"]) [c.kapiGroup]) ["configmaps"]),
        RuleOrDie (Resources (Groups (NewRule ["list"]) [c.kapiGroup]) ["secrets"]),
        RuleOrDie (Resources (Groups (NewRule ["list"]) [c.kapiGroup]) ["replicationcontrollers"]),
        eventsRule c ]
  ]

/-- The function `init`, run on the freshly initialised package variables. -/
def init (c : Constants) : Outcome :=
  runStmts c (initScript c) Registry.empty

/-- A sequence of `addControllerRole` calls, one per role, in list order. -/
def registerAll (c : Constants) : List ClusterRole → Registry → Outcome
  | [], s => .ok s
  | role :: rest, s =>
    match addControllerRole c role s with
    | .error e => .error e
    | .ok s1 => registerAll c rest s1

/-- Lines 41-42 of `addControllerRole`: the default binding expression
`rbac.NewClusterBinding(name).SAs(DefaultOpenShiftInfraNamespace, name[len(saRolePrefix):]).BindingOrDie()`. -/
def defaultBinding (c : Constants) (name : String) : Option ClusterRoleBinding :=
  match sliceFrom name saRolePrefix.length with
  | none => none
  | some saName =>
    BindingOrDie (SAs (NewClusterBinding name) c.DefaultOpenShiftInfraNamespace [saName])

/-- Modelled from the spec: the constant declarations of package
`bootstrappolicy` are not among the sources.  These are sample values used
for concrete evaluation: the service-account names follow the spec's
`build-controller` example and the section comments of `init`, the role
`AdminRoleName` is the pre-existing administrative role, which does not carry
the controller prefix. -/
def sampleConstants : Constants :=
  { DefaultOpenShiftInfraNamespace := "openshift-infra"
    AdminRoleName := "admin"
    roleSystemOnly := "authorization.openshift.io/system-only"
    roleIsSystemOnly := "true"
    InfraBuildControllerServiceAccountName := "build-controller"
    InfraBuildConfigChangeControllerServiceAccountName := "build-config-change-controller"
    InfraDeployerControllerServiceAccountName := "deployer-controller"
    InfraDeploymentConfigControllerServiceAccountName := "deploymentconfig-controller"
    InfraDeploymentTriggerControllerServiceAccountName := "deployment-trigger-controller"
    InfraTemplateInstanceControllerServiceAccountName := "template-instance-controller"
    InfraOriginNamespaceServiceAccountName := "origin-namespace-controller"
    InfraServiceAccountControllerServiceAccountName := "serviceaccount-controller"
    InfraServiceAccountPullSecretsControllerServiceAccountName := "serviceaccount-pull-secrets-controller"
    InfraImageTriggerControllerServiceAccountName := "image-trigger-controller"
    InfraServiceServingCertServiceAccountName := "service-serving-cert-controller"
    InfraImageImportControllerServiceAccountName := "image-import-controller"
    InfraSDNControllerServiceAccountName := "sdn-controller"
    InfraClusterQuotaReconciliationControllerServiceAccountName := "cluster-quota-reconciliation-controller"
    InfraUnidlingControllerServiceAccountName := "unidling-controller"
    InfraServiceIngressIPControllerServiceAccountName := "service-ingress-ip-controller"
    InfraPersistentVolumeRecyclerControllerServiceAccountName := "pv-recycler-controller"
    InfraResourceQuotaControllerServiceAccountName := "resourcequota-controller"
    kapiGroup := ""
    kAuthzGroup := "authorization.k8s.io"
    buildGroup := "build.openshift.io"
    legacyBuildGroup := ""
    imageGroup := "image.openshift.io"
    legacyImageGroup := ""
    deployGroup := "apps.openshift.io"
    legacyDeployGroup := ""
    templateGroup := "template.openshift.io"
    extensionsGroup := "extensions"
    appsGroup := "apps"
    batchGroup := "batch"
    networkGroup := "network.openshift.io"
    legacyNetworkGroup := ""
    quotaGroup := "quota.openshift.io"
    legacyQuotaGroup := ""
    SourceBuildResource := "builds/source"
    DockerBuildResource := "builds/docker"
    OptimizedDockerBuildResource := "builds/optimizeddocker"
    JenkinsPipelineBuildResource := "builds/jenkinspipeline" }

/-! ## Reachable registries and sample values -/

/-- Registries reachable from the empty one by successful `addControllerRole`
calls. -/
inductive Reachable (c : Constants) : Registry → Prop where
  | empty : Reachable c Registry.empty
  | add {s s1 : Registry} {r : ClusterRole} :
      Reachable c s → addControllerRole c r s = .ok s1 → Reachable c s1

/-- Registries reachable from the empty one by successful `addControllerRole`
calls interleaved with direct appends to `controllerRoleBindings` of bindings
whose role name does not carry `saRolePrefix` (what `init` does once, with
`AdminRoleName`). -/
inductive ReachableWithExtra (c : Constants) : Registry → Prop where
  | empty : ReachableWithExtra c Registry.empty
  | add {s s1 : Registry} {r : ClusterRole} :
      ReachableWithExtra c s → addControllerRole c r s = .ok s1 → ReachableWithExtra c s1
  | extra {s : Registry} (b : ClusterRoleBinding) :
      ReachableWithExtra c s → hasPrefix b.RoleRef.Name saRolePrefix = false →
      ReachableWithExtra c
        { s with controllerRoleBindings := s.controllerRoleBindings ++ [b] }

/-- The value of the default binding expression for a name that carries the
prefix (see `defaultBinding_of_hasPrefix`). -/
def expectedBinding (c : Constants) (name : String) : ClusterRoleBinding :=
  { Name := name
    Subjects := [{ Kind := "ServiceAccount", APIGroup := "",
                   Name := String.mk (name.data.drop saRolePrefix.length),
                   Namespace := c.DefaultOpenShiftInfraNamespace }]
    RoleRef := { APIGroup := "rbac.authorization.k8s.io", Kind := "ClusterRole", Name := name } }

/-- A sample role: the name `saRolePrefix ++ "build-controller"` with three rules. -/
def sampleRole : ClusterRole :=
  { Name := "system:openshift:controller:build-controller"
    Annotations := none
    Rules := [
      Resources (Groups (NewRule ["get"]) [""]) ["pods"],
      Resources (Groups (NewRule ["list"]) [""]) ["secrets"],
      Resources (Groups (NewRule ["create", "update", "patch"]) [""]) ["events"] ] }

/-- A second sample role, `saRolePrefix ++ "deployer-controller"`, with one rule. -/
def sampleRole2 : ClusterRole :=
  { Name := "system:openshift:controller:deployer-controller"
    Annotations := none
    Rules := [Resources (Groups (NewRule ["delete"]) [""]) ["replicationcontrollers"]] }

/-- The registry after registering `sampleRole` on the empty registry. -/
def sampleRegistry : Registry :=
  { controllerRoles := [
      { sampleRole with
        Annotations := some [("authorization.openshift.io/system-only", "true")] } ]
    controllerRoleBindings := [
      { Name := "system:openshift:controller:build-controller"
        Subjects := [{ Kind := "ServiceAccount", APIGroup := "", Name := "build-controller",
                       Namespace := "openshift-infra" }]
        RoleRef := { APIGroup := "rbac.authorization.k8s.io", Kind := "ClusterRole",
                     Name := "system:openshift:controller:build-controller" } } ] }

/-- The registry after registering `sampleRole` and then `sampleRole2`. -/
def sampleRegistry2 : Registry :=
  { controllerRoles := sampleRegistry.controllerRoles ++ [
      { sampleRole2 with
        Annotations := some [("authorization.openshift.io/system-only", "true")] } ]
    controllerRoleBindings := sampleRegistry.controllerRoleBindings ++ [
      { Name := "system:openshift:controller:deployer-controller"
        Subjects := [{ Kind := "ServiceAccount", APIGroup := "", Name := "deployer-controller",
                       Namespace := "openshift-infra" }]
        RoleRef := { APIGroup := "rbac.authorization.k8s.io", Kind := "ClusterRole",
                     Name := "system:openshift:controller:deployer-controller" } } ] }

/-- The extra binding of `init`, on the sample constants: `AdminRoleName` bound
to the template-instance-controller service account. -/
def sampleAdminBinding : ClusterRoleBinding :=
  { Name := "admin"
    Subjects := [{ Kind := "ServiceAccount", APIGroup := "",
                   Name := "template-instance-controller", Namespace := "openshift-infra" }]
    RoleRef := { APIGroup := "rbac.authorization.k8s.io", Kind := "ClusterRole", Name := "admin" } }

/-- The registry `sampleRegistry` with `sampleAdminBinding` appended to the bindings. -/
def sampleRegistryExtra : Registry :=
  { sampleRegistry with
    controllerRoleBindings := sampleRegistry.controllerRoleBindings ++ [sampleAdminBinding] }

/-- The roles a statement of `init` appends when it succeeds. -/
def stmtRoles (c : Constants) : Stmt → List ClusterRole
  | .addControllerRole name rules =>
    match evalRules rules with
    | none => []
    | some rs => [tagSystemOnly c { Name := name, Annotations := none, Rules := rs }]
  | .appendBinding _ => []

/-- The bindings a statement of `init` appends when it succeeds. -/
def stmtBindings (c : Constants) : Stmt → List ClusterRoleBinding
  | .addControllerRole name _ => [expectedBinding c name]
  | .appendBinding none => []
  | .appendBinding (some b) => [b]

/-- The roles a list of statements appends when it succeeds. -/
def scriptRoles (c : Constants) : List Stmt → List ClusterRole
  | [] => []
  | st :: rest => stmtRoles c st ++ scriptRoles c rest

/-- The bindings a list of statements appends when it succeeds. -/
def scriptBindings (c : Constants) : List Stmt → List ClusterRoleBinding
  | [] => []
  | st :: rest => stmtBindings c st ++ scriptBindings c rest

/-- The registry `init` produces on the sample constants. -/
def sampleInitRegistry : Registry :=
  match init sampleConstants with
  | .ok s => s
  | .error e => e.2

/-- The names `init` registers, in source order. -/
def initNames (c : Constants) : List String :=
  [ saRolePrefix ++ c.InfraBuildControllerServiceAccountName,
    saRolePrefix ++ c.InfraBuildConfigChangeControllerServiceAccountName,
    saRolePrefix ++ c.InfraDeployerControllerServiceAccountName,
    saRolePrefix ++ c.InfraDeploymentConfigControllerServiceAccountName,
    saRolePrefix ++ c.InfraDeploymentTriggerControllerServiceAccountName,
    saRolePrefix ++ c.InfraTemplateInstanceControllerServiceAccountName,
    saRolePrefix ++ c.InfraOriginNamespaceServiceAccountName,
    saRolePrefix ++ c.InfraServiceAccountControllerServiceAccountName,
    saRolePrefix ++ c.InfraServiceAccountPullSecretsControllerServiceAccountName,
    saRolePrefix ++ c.InfraImageTriggerControllerServiceAccountName,
    saRolePrefix ++ c.InfraServiceServingCertServiceAccountName,
    saRolePrefix ++ c.InfraImageImportControllerServiceAccountName,
    saRolePrefix ++ c.InfraSDNControllerServiceAccountName,
    saRolePrefix ++ c.InfraClusterQuotaReconciliationControllerServiceAccountName,
    saRolePrefix ++ c.InfraUnidlingControllerServiceAccountName,
    saRolePrefix ++ c.InfraServiceIngressIPControllerServiceAccountName,
    saRolePrefix ++ c.InfraPersistentVolumeRecyclerControllerServiceAccountName,
    saRolePrefix ++ c.InfraResourceQuotaControllerServiceAccountName ]

/-- The value of the extra binding expression of `init`:
`rbac.NewClusterBinding(AdminRoleName).SAs(DefaultOpenShiftInfraNamespace,
InfraTemplateInstanceControllerServiceAccountName).BindingOrDie()`. -/
def expectedAdminBinding (c : Constants) : ClusterRoleBinding :=
  { Name := c.AdminRoleName
    Subjects := [{ Kind := "ServiceAccount", APIGroup := "",
                   Name := c.InfraTemplateInstanceControllerServiceAccountName,
                   Namespace := c.DefaultOpenShiftInfraNamespace }]
    RoleRef := { APIGroup := "rbac.authorization.k8s.io", Kind := "ClusterRole",
                 Name := c.AdminRoleName } }

/-! ## Accessor calls, script names and further sample values -/

/-- The two accessors of the package. -/
inductive Accessor where
  /-- A call of `ControllerRoles()`. -/
  | roles
  /-- A call of `ControllerRoleBindings()`. -/
  | bindings
deriving DecidableEq, Repr

/-- What an accessor call returns. -/
inductive AccessorResult where
  /-- The slice returned by `ControllerRoles()`. -/
  | roles (rs : List ClusterRole)
  /-- The slice returned by `ControllerRoleBindings()`. -/
  | bindings (bs : List ClusterRoleBinding)
deriving DecidableEq, Repr

/-- One accessor call in state-passing form: the returned slice and the
package variables after the call.  Neither function body assigns anything. -/
def Accessor.call : Accessor → Registry → AccessorResult × Registry
  | .roles, s => (.roles (ControllerRoles s), s)
  | .bindings, s => (.bindings (ControllerRoleBindings s), s)

/-- A sequence of accessor calls: the results in call order and the package
variables after the last call. -/
def callAccessors : List Accessor → Registry → List AccessorResult × Registry
  | [], s => ([], s)
  | a :: rest, s =>
    let (r, s1) := a.call s
    let (rs, s2) := callAccessors rest s1
    (r :: rs, s2)

/-- The service-account name constants `init` uses, in source order. -/
def initServiceAccountNames (c : Constants) : List String :=
  [ c.InfraBuildControllerServiceAccountName,
    c.InfraBuildConfigChangeControllerServiceAccountName,
    c.InfraDeployerControllerServiceAccountName,
    c.InfraDeploymentConfigControllerServiceAccountName,
    c.InfraDeploymentTriggerControllerServiceAccountName,
    c.InfraTemplateInstanceControllerServiceAccountName,
    c.InfraOriginNamespaceServiceAccountName,
    c.InfraServiceAccountControllerServiceAccountName,
    c.InfraServiceAccountPullSecretsControllerServiceAccountName,
    c.InfraImageTriggerControllerServiceAccountName,
    c.InfraServiceServingCertServiceAccountName,
    c.InfraImageImportControllerServiceAccountName,
    c.InfraSDNControllerServiceAccountName,
    c.InfraClusterQuotaReconciliationControllerServiceAccountName,
    c.InfraUnidlingControllerServiceAccountName,
    c.InfraServiceIngressIPControllerServiceAccountName,
    c.InfraPersistentVolumeRecyclerControllerServiceAccountName,
    c.InfraResourceQuotaControllerServiceAccountName ]

/-- The role names of the `addControllerRole` statements of a script, in order. -/
def scriptNames : List Stmt → List String
  | [] => []
  | .addControllerRole name _ :: rest => name :: scriptNames rest
  | .appendBinding _ :: rest => scriptNames rest

/-- Does the argument of a statement evaluate without a panic? -/
def stmtEvaluates : Stmt → Bool
  | .addControllerRole _ rules => (evalRules rules).isSome
  | .appendBinding binding => binding.isSome

/-- A rule with at least one verb, one API group and one resource. -/
def ruleComplete (r : PolicyRule) : Bool :=
  !r.Verbs.isEmpty && !r.APIGroups.isEmpty && !r.Resources.isEmpty

/-- The rule-list literal of a statement is non-empty and each of its
`RuleOrDie` calls returns a complete rule. -/
def stmtRulesComplete : Stmt → Bool
  | .addControllerRole _ rules =>
    !rules.isEmpty && rules.all (fun r =>
      match r with
      | none => false
      | some rule => ruleComplete rule)
  | .appendBinding _ => true

/-- A sample role that already carries annotations: a stale value for the
system-only key and one unrelated key. -/
def sampleRoleAnnotated : ClusterRole :=
  { Name := "system:openshift:controller:sdn-controller"
    Annotations := some [("description", "sdn"),
                         ("authorization.openshift.io/system-only", "false")]
    Rules := [Resources (Groups (NewRule ["list"]) [""]) ["services"]] }

/-- The registry after registering `sampleRoleAnnotated` on the empty registry. -/
def sampleRegistryAnnotated : Registry :=
  { controllerRoles := [
      { sampleRoleAnnotated with
        Annotations := some [("description", "sdn"),
                             ("authorization.openshift.io/system-only", "true")] } ]
    controllerRoleBindings := [
      { Name := "system:openshift:controller:sdn-controller"
        Subjects := [{ Kind := "ServiceAccount", APIGroup := "", Name := "sdn-controller",
                       Namespace := "openshift-infra" }]
        RoleRef := { APIGroup := "rbac.authorization.k8s.io", Kind := "ClusterRole",
                     Name := "system:openshift:controller:sdn-controller" } } ] }

/-- A registry that no run of `addControllerRole` produces: it holds a role
named `admin`, without the prefix. -/
def sampleRegistryUnreachable : Registry :=
  { controllerRoles := [{ Name := "admin", Annotations := none, Rules := [] }]
    controllerRoleBindings := [] }

/-- A role whose name is exactly `saRolePrefix`. -/
def sampleRoleBare : ClusterRole :=
  { Name := "system:openshift:controller:"
    Annotations := none
    Rules := [Resources (Groups (NewRule ["get"]) [""]) ["pods"]] }

/-! ## Basic facts -/

theorem hasPrefix_iff (s p : String) :
    hasPrefix s p = true ↔ ∃ t : List Char, s.data = p.data ++ t := by
  unfold hasPrefix
  simp only [Bool.and_eq_true, decide_eq_true_eq, beq_iff_eq, String.length]
  constructor
  · rintro ⟨_, h2⟩
    exact ⟨s.data.drop p.data.length, by
      conv_lhs => rw [← List.take_append_drop p.data.length s.data]
      rw [h2]⟩
  · rintro ⟨t, ht⟩
    rw [ht]
    simp

theorem hasPrefix_append (p x : String) : hasPrefix (p ++ x) p = true :=
  (hasPrefix_iff _ _).2 ⟨x.data, by simp⟩

theorem sliceFrom_of_hasPrefix {s p : String} (h : hasPrefix s p = true) :
    sliceFrom s p.length = some (String.mk (s.data.drop p.length)) := by
  unfold hasPrefix at h
  simp only [Bool.and_eq_true, decide_eq_true_eq] at h
  simp [sliceFrom, h.1]

theorem alreadyRegistered_iff (name : String) (roles : List ClusterRole) :
    alreadyRegistered name roles = true ↔ ∃ e ∈ roles, e.Name = name := by
  induction roles with
  | nil => simp [alreadyRegistered]
  | cons e rest ih =>
    unfold alreadyRegistered
    by_cases h : name = e.Name
    · simp [h]
    · have h2 : ¬ e.Name = name := fun h3 => h h3.symm
      simp [h, h2, ih]

theorem mapGet_mapSet (m : StringMap) (k v : String) : mapGet (mapSet m k v) k = some v := by
  induction m with
  | nil => simp [mapSet, mapGet]
  | cons kv m ih =>
    obtain ⟨k1, v1⟩ := kv
    unfold mapSet
    by_cases h : k1 = k
    · simp [h, mapGet]
    · simp [h, mapGet, ih]

theorem defaultBinding_of_hasPrefix (c : Constants) {name : String}
    (h : hasPrefix name saRolePrefix = true) :
    defaultBinding c name = some
      { Name := name
        Subjects := [{ Kind := "ServiceAccount", APIGroup := "",
                       Name := String.mk (name.data.drop saRolePrefix.length),
                       Namespace := c.DefaultOpenShiftInfraNamespace }]
        RoleRef := { APIGroup := "rbac.authorization.k8s.io", Kind := "ClusterRole", Name := name } } := by
  simp [defaultBinding, sliceFrom_of_hasPrefix h, BindingOrDie, SAs, NewClusterBinding]

theorem tagSystemOnly_Name (c : Constants) (r : ClusterRole) : (tagSystemOnly c r).Name = r.Name := rfl

theorem tagSystemOnly_Rules (c : Constants) (r : ClusterRole) : (tagSystemOnly c r).Rules = r.Rules := rfl

/-- The result of `addControllerRole` in closed form. -/
theorem addControllerRole_eq (c : Constants) (r : ClusterRole) (s : Registry) :
    addControllerRole c r s =
      if hasPrefix r.Name saRolePrefix = false then .error (.invalidRoleName r.Name, s)
      else if alreadyRegistered r.Name s.controllerRoles = true then
        .error (.duplicateRoleName r.Name, s)
      else
        match defaultBinding c r.Name with
        | none => .error (.runtimePanic, s)
        | some b => .ok { controllerRoles := s.controllerRoles ++ [tagSystemOnly c r]
                          controllerRoleBindings := s.controllerRoleBindings ++ [b] } := by
  unfold addControllerRole
  by_cases h1 : hasPrefix r.Name saRolePrefix = true
  · by_cases h2 : alreadyRegistered r.Name s.controllerRoles = true
    · simp [h1, h2]
    · have h3 := sliceFrom_of_hasPrefix h1
      simp [h1, h2, defaultBinding_of_hasPrefix c h1, tagSystemOnly_Name, h3,
        BindingOrDie, SAs, NewClusterBinding]
  · simp [h1]

theorem addControllerRole_ok_iff (c : Constants) (r : ClusterRole) (s s1 : Registry) :
    addControllerRole c r s = .ok s1 ↔
      hasPrefix r.Name saRolePrefix = true ∧ alreadyRegistered r.Name s.controllerRoles = false ∧
      ∃ b, defaultBinding c r.Name = some b ∧
        s1 = { controllerRoles := s.controllerRoles ++ [tagSystemOnly c r]
               controllerRoleBindings := s.controllerRoleBindings ++ [b] } := by
  rw [addControllerRole_eq]
  by_cases h1 : hasPrefix r.Name saRolePrefix = true
  · by_cases h2 : alreadyRegistered r.Name s.controllerRoles = true
    · simp [h1, h2]
    · simp only [Bool.not_eq_true] at h2
      rw [defaultBinding_of_hasPrefix c h1]
      simp only [h1, h2, Bool.true_eq_false, Bool.false_eq_true, if_false, true_and]
      constructor
      · intro h
        injection h with h
        exact ⟨_, rfl, h.symm⟩
      · rintro ⟨b, hb, rfl⟩
        injection hb with hb
        rw [hb]
  · simp [h1]

theorem addControllerRole_error_iff (c : Constants) (r : ClusterRole) (s : Registry)
    (e : Failure × Registry) :
    addControllerRole c r s = .error e ↔
      (hasPrefix r.Name saRolePrefix = false ∧ e = (.invalidRoleName r.Name, s)) ∨
      (hasPrefix r.Name saRolePrefix = true ∧ alreadyRegistered r.Name s.controllerRoles = true ∧
        e = (.duplicateRoleName r.Name, s)) := by
  rw [addControllerRole_eq]
  by_cases h1 : hasPrefix r.Name saRolePrefix = true
  · by_cases h2 : alreadyRegistered r.Name s.controllerRoles = true
    · simp only [h1, h2, Bool.true_eq_false, if_false, if_true, false_and, true_and, false_or]
      constructor
      · intro h
        injection h with h
        exact h.symm
      · rintro rfl
        rfl
    · rw [defaultBinding_of_hasPrefix c h1]
      simp [h1, h2]
  · simp only [Bool.not_eq_true] at h1
    simp only [h1, if_true, true_and, Bool.false_eq_true, false_and, or_false]
    constructor
    · intro h
      injection h with h
      exact h.symm
    · rintro rfl
      rfl

theorem append_sliced_of_hasPrefix {s p : String} (h : hasPrefix s p = true) :
    p ++ String.mk (s.data.drop p.length) = s := by
  obtain ⟨t, ht⟩ := (hasPrefix_iff s p).1 h
  apply String.ext
  rw [String.data_append, ht]
  show p.data ++ List.drop p.data.length (p.data ++ t) = p.data ++ t
  rw [List.drop_left]

/-! ## Single registrations -/

/-- C1: `addControllerRole` aborts exactly when the role name lacks the prefix
`saRolePrefix` or some registered role already has that name; the abort is one
of the two fatal errors (never a panic), and in every other case the call
succeeds. -/
theorem addControllerRole_fails_iff (c : Constants) (s : Registry) (r : ClusterRole) :
    ((∃ e, addControllerRole c r s = .error e) ↔
      (hasPrefix r.Name saRolePrefix = false ∨ ∃ e ∈ s.controllerRoles, e.Name = r.Name)) ∧
    ((∃ s1, addControllerRole c r s = .ok s1) ↔
      ¬ (hasPrefix r.Name saRolePrefix = false ∨ ∃ e ∈ s.controllerRoles, e.Name = r.Name)) ∧
    (∀ e, addControllerRole c r s = .error e →
      e.1 = .invalidRoleName r.Name ∨ e.1 = .duplicateRoleName r.Name) := by
  refine ⟨?_, ?_, ?_⟩
  · constructor
    · rintro ⟨e, he⟩
      rcases (addControllerRole_error_iff c r s e).1 he with ⟨h, _⟩ | ⟨_, h, _⟩
      · exact Or.inl h
      · exact Or.inr ((alreadyRegistered_iff _ _).1 h)
    · rintro (h | h)
      · exact ⟨_, (addControllerRole_error_iff c r s _).2 (Or.inl ⟨h, rfl⟩)⟩
      · by_cases hp : hasPrefix r.Name saRolePrefix = true
        · exact ⟨_, (addControllerRole_error_iff c r s _).2
            (Or.inr ⟨hp, (alreadyRegistered_iff _ _).2 h, rfl⟩)⟩
        · simp only [Bool.not_eq_true] at hp
          exact ⟨_, (addControllerRole_error_iff c r s _).2 (Or.inl ⟨hp, rfl⟩)⟩
  · constructor
    · rintro ⟨s1, hs1⟩
      obtain ⟨hp, hd, _⟩ := (addControllerRole_ok_iff c r s s1).1 hs1
      rintro (h | h)
      · rw [hp] at h
        cases h
      · rw [(alreadyRegistered_iff _ _).2 h] at hd
        cases hd
    · intro h
      have hp : hasPrefix r.Name saRolePrefix = true := by
        by_contra hp
        simp only [Bool.not_eq_true] at hp
        exact h (Or.inl hp)
      have hd : alreadyRegistered r.Name s.controllerRoles = false := by
        by_contra hd
        simp only [Bool.not_eq_false] at hd
        exact h (Or.inr ((alreadyRegistered_iff _ _).1 hd))
      exact ⟨_, (addControllerRole_ok_iff c r s _).2
        ⟨hp, hd, _, defaultBinding_of_hasPrefix c hp, rfl⟩⟩
  · intro e he
    rcases (addControllerRole_error_iff c r s e).1 he with ⟨_, h⟩ | ⟨_, _, h⟩
    · exact Or.inl (by rw [h])
    · exact Or.inr (by rw [h])

/-- C2: a successful `addControllerRole` appends exactly one role, with the
name and the rule list of the argument and the system-only annotation, and
exactly one binding, whose role reference is the role name and whose single
subject is the service account named by the role name without the prefix, in
`DefaultOpenShiftInfraNamespace`.  In particular registering
`saRolePrefix ++ "build-controller"` with three rules on the empty registry
succeeds and yields one such role and one binding to `build-controller`. -/
theorem addControllerRole_appends :
    (∀ (c : Constants) (s s1 : Registry) (r : ClusterRole),
      addControllerRole c r s = .ok s1 →
      ∃ entry binding sa annotations,
        ControllerRoles s1 = ControllerRoles s ++ [entry] ∧
        entry.Name = r.Name ∧ entry.Rules = r.Rules ∧
        entry.Annotations = some annotations ∧
        mapGet annotations c.roleSystemOnly = some c.roleIsSystemOnly ∧
        ControllerRoleBindings s1 = ControllerRoleBindings s ++ [binding] ∧
        binding.RoleRef.Name = r.Name ∧ binding.RoleRef.Kind = "ClusterRole" ∧
        binding.Subjects = [sa] ∧
        sa.Kind = "ServiceAccount" ∧ sa.Namespace = c.DefaultOpenShiftInfraNamespace ∧
        sliceFrom r.Name saRolePrefix.length = some sa.Name ∧
        saRolePrefix ++ sa.Name = r.Name) ∧
    (∀ (c : Constants) (annotations : Option StringMap) (r1 r2 r3 : PolicyRule),
      ∃ entry binding sa,
        addControllerRole c
            { Name := saRolePrefix ++ "build-controller", Annotations := annotations,
              Rules := [r1, r2, r3] } Registry.empty
          = .ok { controllerRoles := [entry], controllerRoleBindings := [binding] } ∧
        entry.Name = saRolePrefix ++ "build-controller" ∧ entry.Rules = [r1, r2, r3] ∧
        (∃ m, entry.Annotations = some m ∧
          mapGet m c.roleSystemOnly = some c.roleIsSystemOnly) ∧
        binding.RoleRef.Name = saRolePrefix ++ "build-controller" ∧
        binding.Subjects = [sa] ∧ sa.Kind = "ServiceAccount" ∧
        sa.Name = "build-controller" ∧
        sa.Namespace = c.DefaultOpenShiftInfraNamespace) := by
  constructor
  · intro c s s1 r h
    obtain ⟨hp, _, b, hb, rfl⟩ := (addControllerRole_ok_iff c r s s1).1 h
    rw [defaultBinding_of_hasPrefix c hp] at hb
    injection hb with hb
    subst hb
    refine ⟨tagSystemOnly c r, _, _, _, rfl, rfl, rfl, rfl, mapGet_mapSet _ _ _, rfl, rfl, rfl,
      rfl, rfl, rfl, ?_, ?_⟩
    · exact sliceFrom_of_hasPrefix hp
    · exact append_sliced_of_hasPrefix hp
  · intro c annotations r1 r2 r3
    have hp : hasPrefix (saRolePrefix ++ "build-controller") saRolePrefix = true :=
      hasPrefix_append _ _
    have hb := defaultBinding_of_hasPrefix c hp
    have hr := (addControllerRole_ok_iff c
      ⟨saRolePrefix ++ "build-controller", annotations, [r1, r2, r3]⟩ Registry.empty _).2
      ⟨hp, rfl, _, hb, rfl⟩
    have hn : String.mk ((saRolePrefix ++ "build-controller").data.drop saRolePrefix.length)
        = "build-controller" := by decide
    exact ⟨_, _, ⟨"ServiceAccount", "",
        String.mk ((saRolePrefix ++ "build-controller").data.drop saRolePrefix.length),
        c.DefaultOpenShiftInfraNamespace⟩,
      hr, rfl, rfl, ⟨_, rfl, mapGet_mapSet _ _ _⟩, rfl, rfl, rfl, hn, rfl⟩

/-- C6: when `addControllerRole` aborts, for a missing prefix or for a
duplicate name, the registry at the abort is the registry before the call:
both slices are unchanged. -/
theorem addControllerRole_failure_unchanged (c : Constants) (r : ClusterRole) (s s1 : Registry)
    (f : Failure) (h : addControllerRole c r s = .error (f, s1)) :
    s1 = s ∧ ControllerRoles s1 = ControllerRoles s ∧
      ControllerRoleBindings s1 = ControllerRoleBindings s ∧
      (f = .invalidRoleName r.Name ∨ f = .duplicateRoleName r.Name) := by
  rcases (addControllerRole_error_iff c r s _).1 h with ⟨_, h1⟩ | ⟨_, _, h1⟩
  · injection h1 with hf hs
    subst hs
    exact ⟨rfl, rfl, rfl, Or.inl hf⟩
  · injection h1 with hf hs
    subst hs
    exact ⟨rfl, rfl, rfl, Or.inr hf⟩

theorem addControllerRole_appends_witness :
    addControllerRole sampleConstants sampleRole Registry.empty = .ok sampleRegistry ∧
    ∃ entry binding sa annotations,
      ControllerRoles sampleRegistry = ControllerRoles Registry.empty ++ [entry] ∧
      entry.Name = sampleRole.Name ∧ entry.Rules = sampleRole.Rules ∧
      entry.Annotations = some annotations ∧
      mapGet annotations sampleConstants.roleSystemOnly = some sampleConstants.roleIsSystemOnly ∧
      ControllerRoleBindings sampleRegistry = ControllerRoleBindings Registry.empty ++ [binding] ∧
      binding.RoleRef.Name = sampleRole.Name ∧ binding.RoleRef.Kind = "ClusterRole" ∧
      binding.Subjects = [sa] ∧
      sa.Kind = "ServiceAccount" ∧
      sa.Namespace = sampleConstants.DefaultOpenShiftInfraNamespace ∧
      sliceFrom sampleRole.Name saRolePrefix.length = some sa.Name ∧
      saRolePrefix ++ sa.Name = sampleRole.Name :=
  ⟨by rfl, addControllerRole_appends.1 sampleConstants Registry.empty sampleRegistry sampleRole
    (by rfl)⟩

theorem addControllerRole_failure_unchanged_witness :
    addControllerRole sampleConstants sampleRole sampleRegistry
      = .error (.duplicateRoleName "system:openshift:controller:build-controller",
          sampleRegistry) ∧
    (sampleRegistry = sampleRegistry ∧
      ControllerRoles sampleRegistry = ControllerRoles sampleRegistry ∧
      ControllerRoleBindings sampleRegistry = ControllerRoleBindings sampleRegistry ∧
      (Failure.duplicateRoleName "system:openshift:controller:build-controller"
          = .invalidRoleName sampleRole.Name ∨
        Failure.duplicateRoleName "system:openshift:controller:build-controller"
          = .duplicateRoleName sampleRole.Name)) :=
  ⟨by rfl, addControllerRole_failure_unchanged sampleConstants sampleRole sampleRegistry
    sampleRegistry _ (by rfl)⟩

/-! ## Invariants of reachable registries -/

theorem Reachable.withExtra {c : Constants} {s : Registry} (h : Reachable c s) :
    ReachableWithExtra c s := by
  induction h with
  | empty => exact .empty
  | add _ hadd ih => exact .add ih hadd

theorem ReachableWithExtra.roles_hasPrefix {c : Constants} {s : Registry}
    (h : ReachableWithExtra c s) :
    ∀ r ∈ s.controllerRoles, hasPrefix r.Name saRolePrefix = true := by
  induction h with
  | empty => intro r hr; cases hr
  | @add s s1 r0 _ hadd ih =>
    obtain ⟨hp, _, b, _, rfl⟩ := (addControllerRole_ok_iff c r0 s s1).1 hadd
    intro r hr
    rcases List.mem_append.1 hr with hr | hr
    · exact ih r hr
    · rw [List.mem_singleton.1 hr]
      exact hp
  | extra b _ _ ih => exact ih

theorem ReachableWithExtra.names_nodup {c : Constants} {s : Registry}
    (h : ReachableWithExtra c s) :
    (s.controllerRoles.map (fun r => r.Name)).Nodup := by
  induction h with
  | empty => exact List.nodup_nil
  | @add s s1 r0 _ hadd ih =>
    obtain ⟨_, hd, b, _, rfl⟩ := (addControllerRole_ok_iff c r0 s s1).1 hadd
    have hnot : ¬ ∃ e ∈ s.controllerRoles, e.Name = r0.Name := by
      intro he
      rw [(alreadyRegistered_iff _ _).2 he] at hd
      cases hd
    show (List.map (fun r => r.Name) (s.controllerRoles ++ [tagSystemOnly c r0])).Nodup
    rw [List.map_append, List.nodup_append]
    refine ⟨ih, List.nodup_singleton _, ?_⟩
    intro a ha hb
    rw [List.map_singleton, List.mem_singleton] at hb
    obtain ⟨e, he, hea⟩ := List.mem_map.1 ha
    exact hnot ⟨e, he, by rw [hea, hb]; rfl⟩
  | extra b _ _ ih => exact ih

/-- C3: in every registry reachable from the empty one by successful
`addControllerRole` calls, every role returned by `ControllerRoles` has a name
that starts with `saRolePrefix`. -/
theorem reachable_roles_hasPrefix (c : Constants) (s : Registry) (h : Reachable c s) :
    ∀ r ∈ ControllerRoles s, hasPrefix r.Name saRolePrefix = true :=
  h.withExtra.roles_hasPrefix

theorem reachable_roles_hasPrefix_witness :
    Reachable sampleConstants sampleRegistry2 ∧
    ∀ r ∈ ControllerRoles sampleRegistry2, hasPrefix r.Name saRolePrefix = true :=
  ⟨@Reachable.add sampleConstants sampleRegistry sampleRegistry2 sampleRole2
      (@Reachable.add sampleConstants Registry.empty sampleRegistry sampleRole .empty (by rfl))
      (by rfl),
   reachable_roles_hasPrefix sampleConstants sampleRegistry2
    (@Reachable.add sampleConstants sampleRegistry sampleRegistry2 sampleRole2
      (@Reachable.add sampleConstants Registry.empty sampleRegistry sampleRole .empty (by rfl))
      (by rfl))⟩

/-- C4: in every registry reachable from the empty one by successful
`addControllerRole` calls, no two positions of `ControllerRoles` hold the same
name. -/
theorem reachable_names_distinct (c : Constants) (s : Registry) (h : Reachable c s) :
    ∀ i j : Fin (ControllerRoles s).length, i ≠ j →
      ((ControllerRoles s).get i).Name ≠ ((ControllerRoles s).get j).Name := by
  have hn := h.withExtra.names_nodup
  intro i j hij hname
  have hinj := List.nodup_iff_injective_get.1 hn
  have hlen : (s.controllerRoles.map (fun r => r.Name)).length = s.controllerRoles.length :=
    List.length_map _ _
  have := @hinj ⟨i.1, by rw [hlen]; exact i.2⟩ ⟨j.1, by rw [hlen]; exact j.2⟩
    (by simpa [ControllerRoles] using hname)
  exact hij (Fin.ext (Fin.mk.inj this))

theorem reachable_names_distinct_witness :
    Reachable sampleConstants sampleRegistry2 ∧
    ∀ i j : Fin (ControllerRoles sampleRegistry2).length, i ≠ j →
      ((ControllerRoles sampleRegistry2).get i).Name ≠
        ((ControllerRoles sampleRegistry2).get j).Name :=
  ⟨@Reachable.add sampleConstants sampleRegistry sampleRegistry2 sampleRole2
      (@Reachable.add sampleConstants Registry.empty sampleRegistry sampleRole .empty (by rfl))
      (by rfl),
   reachable_names_distinct sampleConstants sampleRegistry2
    (@Reachable.add sampleConstants sampleRegistry sampleRegistry2 sampleRole2
      (@Reachable.add sampleConstants Registry.empty sampleRegistry sampleRole .empty (by rfl))
      (by rfl))⟩

/-- Bindings whose role reference has the prefix name registered roles, every
role has the prefix, and every role has exactly its default binding. -/
theorem ReachableWithExtra.bindings_inv {c : Constants} {s : Registry}
    (h : ReachableWithExtra c s) :
    (∀ b ∈ s.controllerRoleBindings, hasPrefix b.RoleRef.Name saRolePrefix = true →
      ∃ r ∈ s.controllerRoles, r.Name = b.RoleRef.Name) ∧
    (∀ r ∈ s.controllerRoles,
      s.controllerRoleBindings.filter (fun b => decide (b.RoleRef.Name = r.Name))
        = [expectedBinding c r.Name]) := by
  induction h with
  | empty =>
    exact ⟨fun b hb => (by cases hb), fun r hr => (by cases hr)⟩
  | @add s s1 r0 hs hadd ih =>
    obtain ⟨hp, hd, b0, hb0, rfl⟩ := (addControllerRole_ok_iff c r0 s s1).1 hadd
    rw [defaultBinding_of_hasPrefix c hp] at hb0
    injection hb0 with hb0
    have hb0e : b0 = expectedBinding c r0.Name := hb0.symm
    subst hb0e
    have hnot : ∀ e ∈ s.controllerRoles, e.Name ≠ r0.Name := by
      intro e he hname
      rw [(alreadyRegistered_iff _ _).2 ⟨e, he, hname⟩] at hd
      cases hd
    obtain ⟨ih1, ih2⟩ := ih
    constructor
    · intro b hb hbp
      rcases List.mem_append.1 hb with hb | hb
      · obtain ⟨r, hr, hrn⟩ := ih1 b hb hbp
        exact ⟨r, List.mem_append.2 (Or.inl hr), hrn⟩
      · rw [List.mem_singleton.1 hb]
        exact ⟨tagSystemOnly c r0, List.mem_append.2 (Or.inr (List.mem_singleton.2 rfl)), rfl⟩
    · intro r hr
      show List.filter _ (s.controllerRoleBindings ++ [expectedBinding c r0.Name]) = _
      rw [List.filter_append]
      rcases List.mem_append.1 hr with hr | hr
      · rw [ih2 r hr]
        have hne : ¬ (expectedBinding c r0.Name).RoleRef.Name = r.Name :=
          fun hh => hnot r hr hh.symm
        simp [List.filter, hne]
      · rw [List.mem_singleton.1 hr]
        have hnil : s.controllerRoleBindings.filter
            (fun b => decide (b.RoleRef.Name = (tagSystemOnly c r0).Name)) = [] := by
          rw [List.filter_eq_nil_iff]
          intro b hb hbn
          simp only [decide_eq_true_eq] at hbn
          have hbn2 : b.RoleRef.Name = r0.Name := hbn
          obtain ⟨e, he, hen⟩ := ih1 b hb (by rw [hbn2]; exact hp)
          exact hnot e he (by rw [hen, hbn2])
        rw [hnil]
        simp [List.filter, expectedBinding, tagSystemOnly_Name]
  | @extra s b hs hb ih =>
    obtain ⟨ih1, ih2⟩ := ih
    have hrp := hs.roles_hasPrefix
    constructor
    · intro b1 hb1 hbp
      rcases List.mem_append.1 hb1 with hb1 | hb1
      · exact ih1 b1 hb1 hbp
      · rw [List.mem_singleton.1 hb1, hb] at hbp
        cases hbp
    · intro r hr
      show List.filter _ (s.controllerRoleBindings ++ [b]) = _
      rw [List.filter_append, ih2 r hr]
      have hne : ¬ b.RoleRef.Name = r.Name := by
        intro hh
        have := hrp r hr
        rw [← hh, hb] at this
        cases this
      simp [List.filter, hne]

/-- C5: in every registry reached from the empty one by successful
`addControllerRole` calls, optionally interleaved with appended bindings whose
role name lacks the prefix, every role of `ControllerRoles` has exactly one
binding in `ControllerRoleBindings` whose role reference is the role name: the
default binding, whose single subject is named by the role name with the
prefix stripped. -/
theorem reachable_role_has_one_binding (c : Constants) (s : Registry)
    (h : ReachableWithExtra c s) :
    ∀ r ∈ ControllerRoles s, ∃ b sa,
      (ControllerRoleBindings s).filter (fun b => decide (b.RoleRef.Name = r.Name)) = [b] ∧
      defaultBinding c r.Name = some b ∧
      b.Subjects = [sa] ∧
      sliceFrom r.Name saRolePrefix.length = some sa.Name ∧
      saRolePrefix ++ sa.Name = r.Name := by
  intro r hr
  have hp := h.roles_hasPrefix r hr
  refine ⟨expectedBinding c r.Name,
    ⟨"ServiceAccount", "", String.mk (r.Name.data.drop saRolePrefix.length),
      c.DefaultOpenShiftInfraNamespace⟩, ?_, ?_, rfl, ?_, ?_⟩
  · exact h.bindings_inv.2 r hr
  · exact defaultBinding_of_hasPrefix c hp
  · exact sliceFrom_of_hasPrefix hp
  · exact append_sliced_of_hasPrefix hp

theorem reachable_role_has_one_binding_witness :
    ReachableWithExtra sampleConstants sampleRegistryExtra ∧
    ∀ r ∈ ControllerRoles sampleRegistryExtra, ∃ b sa,
      (ControllerRoleBindings sampleRegistryExtra).filter
          (fun b => decide (b.RoleRef.Name = r.Name)) = [b] ∧
      defaultBinding sampleConstants r.Name = some b ∧
      b.Subjects = [sa] ∧
      sliceFrom r.Name saRolePrefix.length = some sa.Name ∧
      saRolePrefix ++ sa.Name = r.Name :=
  ⟨@ReachableWithExtra.extra sampleConstants sampleRegistry sampleAdminBinding
      (@ReachableWithExtra.add sampleConstants Registry.empty sampleRegistry sampleRole
        .empty (by rfl)) (by rfl),
   reachable_role_has_one_binding sampleConstants sampleRegistryExtra
    (@ReachableWithExtra.extra sampleConstants sampleRegistry sampleAdminBinding
      (@ReachableWithExtra.add sampleConstants Registry.empty sampleRegistry sampleRole
        .empty (by rfl)) (by rfl))⟩

/-! ## Sequences of registrations -/

/-- Closed form of a run of `registerAll`: it succeeds exactly when every
name has the prefix, the names are pairwise distinct and none is registered
yet; the result appends the tagged roles and their default bindings in order. -/
theorem registerAll_ok_iff (c : Constants) (rs : List ClusterRole) :
    ∀ s s1 : Registry, registerAll c rs s = .ok s1 ↔
      (∀ r ∈ rs, hasPrefix r.Name saRolePrefix = true) ∧
      (rs.map (fun r => r.Name)).Nodup ∧
      (∀ r ∈ rs, ∀ e ∈ s.controllerRoles, e.Name ≠ r.Name) ∧
      s1 = { controllerRoles := s.controllerRoles ++ rs.map (tagSystemOnly c)
             controllerRoleBindings :=
               s.controllerRoleBindings ++ rs.map (fun r => expectedBinding c r.Name) } := by
  induction rs with
  | nil =>
    intro s s1
    simp only [registerAll, List.map_nil, List.append_nil, List.nodup_nil, true_and,
      List.not_mem_nil, false_imp_iff, implies_true]
    constructor
    · intro h
      injection h with h
      exact h.symm
    · rintro rfl
      rfl
  | cons r rest ih =>
    intro s s1
    unfold registerAll
    cases hadd : addControllerRole c r s with
    | error e =>
      simp only [false_iff, reduceCtorEq]
      rintro ⟨hp, _, hne, _⟩
      have hd : alreadyRegistered r.Name s.controllerRoles = false := by
        by_contra hd
        simp only [Bool.not_eq_false] at hd
        obtain ⟨e1, he1, hn1⟩ := (alreadyRegistered_iff _ _).1 hd
        exact hne r (List.mem_cons_self _ _) e1 he1 hn1
      have hok := (addControllerRole_ok_iff c r s _).2
        ⟨hp r (List.mem_cons_self _ _), hd, _,
          defaultBinding_of_hasPrefix c (hp r (List.mem_cons_self _ _)), rfl⟩
      rw [hadd] at hok
      cases hok
    | ok s2 =>
      obtain ⟨hp, hd, b, hb, rfl⟩ := (addControllerRole_ok_iff c r s s2).1 hadd
      rw [defaultBinding_of_hasPrefix c hp] at hb
      injection hb with hb
      have hbe : b = expectedBinding c r.Name := hb.symm
      subst hbe
      have hnot : ∀ e ∈ s.controllerRoles, e.Name ≠ r.Name := by
        intro e he hname
        rw [(alreadyRegistered_iff _ _).2 ⟨e, he, hname⟩] at hd
        cases hd
      simp only []
      rw [ih]
      simp only [List.map_cons, List.nodup_cons, List.mem_cons, List.mem_append,
        List.mem_singleton, List.append_assoc, List.singleton_append, List.mem_map,
        List.not_mem_nil, or_false]
      constructor
      · rintro ⟨h1, h2, h3, h4⟩
        refine ⟨?_, ⟨?_, h2⟩, ?_, h4⟩
        · rintro r1 (rfl | hr1)
          · exact hp
          · exact h1 r1 hr1
        · rintro ⟨r1, hr1, hn⟩
          exact h3 r1 hr1 (tagSystemOnly c r) (Or.inr rfl) hn.symm
        · rintro r1 (rfl | hr1) e he
          · exact hnot e he
          · exact h3 r1 hr1 e (Or.inl he)
      · rintro ⟨h1, ⟨h2a, h2⟩, h3, h4⟩
        refine ⟨fun r1 hr1 => h1 r1 (Or.inr hr1), h2, ?_, h4⟩
        rintro r1 hr1 e (he | rfl)
        · exact h3 r1 (Or.inr hr1) e he
        · intro hn
          exact h2a ⟨r1, hr1, hn.symm⟩

theorem registerAll_append (c : Constants) (rs1 rs2 : List ClusterRole) :
    ∀ s : Registry, registerAll c (rs1 ++ rs2) s =
      match registerAll c rs1 s with
      | .error e => .error e
      | .ok s0 => registerAll c rs2 s0 := by
  induction rs1 with
  | nil => intro s; rfl
  | cons r rest ih =>
    intro s
    simp only [List.cons_append, registerAll]
    cases addControllerRole c r s with
    | error e => rfl
    | ok s2 => exact ih s2

theorem registerAll_succeeds_iff (c : Constants) (rs : List ClusterRole) :
    (∃ s, registerAll c rs Registry.empty = .ok s) ↔
      (∀ r ∈ rs, hasPrefix r.Name saRolePrefix = true) ∧ (rs.map (fun r => r.Name)).Nodup := by
  constructor
  · rintro ⟨s, hs⟩
    obtain ⟨h1, h2, _, _⟩ := (registerAll_ok_iff c rs _ _).1 hs
    exact ⟨h1, h2⟩
  · rintro ⟨h1, h2⟩
    exact ⟨_, (registerAll_ok_iff c rs Registry.empty _).2
      ⟨h1, h2, fun _ _ e he => (by cases he), rfl⟩⟩

/-- C7: insertion order is preserved.  After a successful run of
`addControllerRole` calls from the empty registry the names of
`ControllerRoles` are the registered names in call order; the registry after
any initial part of the run holds prefixes of the final sequences; and any
single successful call leaves the old sequences as prefixes of the new ones. -/
theorem registerAll_preserves_order (c : Constants) (rs : List ClusterRole) (s : Registry)
    (h : registerAll c rs Registry.empty = .ok s) :
    (ControllerRoles s).map (fun r => r.Name) = rs.map (fun r => r.Name) ∧
    (∀ rs1 rs2, rs = rs1 ++ rs2 → ∃ s0, registerAll c rs1 Registry.empty = .ok s0 ∧
      ControllerRoles s0 <+: ControllerRoles s ∧
      ControllerRoleBindings s0 <+: ControllerRoleBindings s) ∧
    (∀ s0 s1 r, addControllerRole c r s0 = .ok s1 →
      ControllerRoles s0 <+: ControllerRoles s1 ∧
      ControllerRoleBindings s0 <+: ControllerRoleBindings s1) := by
  refine ⟨?_, ?_, ?_⟩
  · obtain ⟨_, _, _, rfl⟩ := (registerAll_ok_iff c rs _ _).1 h
    show List.map (fun r => r.Name) ([] ++ rs.map (tagSystemOnly c)) = _
    rw [List.nil_append, List.map_map]
    rfl
  · intro rs1 rs2 hrs
    subst hrs
    rw [registerAll_append] at h
    cases h0 : registerAll c rs1 Registry.empty with
    | error e =>
      rw [h0] at h
      cases h
    | ok s0 =>
      rw [h0] at h
      obtain ⟨_, _, _, rfl⟩ := (registerAll_ok_iff c rs2 _ _).1 h
      exact ⟨s0, rfl, ⟨_, rfl⟩, ⟨_, rfl⟩⟩
  · intro s0 s1 r hadd
    obtain ⟨_, _, b, _, rfl⟩ := (addControllerRole_ok_iff c r s0 s1).1 hadd
    exact ⟨⟨_, rfl⟩, ⟨_, rfl⟩⟩

theorem registerAll_preserves_order_witness :
    registerAll sampleConstants [sampleRole, sampleRole2] Registry.empty = .ok sampleRegistry2 ∧
    ((ControllerRoles sampleRegistry2).map (fun r => r.Name)
        = [sampleRole, sampleRole2].map (fun r => r.Name) ∧
    (∀ rs1 rs2, [sampleRole, sampleRole2] = rs1 ++ rs2 →
      ∃ s0, registerAll sampleConstants rs1 Registry.empty = .ok s0 ∧
      ControllerRoles s0 <+: ControllerRoles sampleRegistry2 ∧
      ControllerRoleBindings s0 <+: ControllerRoleBindings sampleRegistry2) ∧
    (∀ s0 s1 r, addControllerRole sampleConstants r s0 = .ok s1 →
      ControllerRoles s0 <+: ControllerRoles s1 ∧
      ControllerRoleBindings s0 <+: ControllerRoleBindings s1)) :=
  ⟨by rfl, registerAll_preserves_order sampleConstants [sampleRole, sampleRole2]
    sampleRegistry2 (by rfl)⟩

/-- C10: order of registration has no semantic effect.  For a list of roles
and any permutation of it, registering the list from the empty registry
succeeds if and only if registering the permutation succeeds, and when both
succeed the two role sequences are permutations of each other, and so are the
two binding sequences. -/
theorem registerAll_perm (c : Constants) (rs rs1 : List ClusterRole) (hperm : rs.Perm rs1) :
    ((∃ s, registerAll c rs Registry.empty = .ok s) ↔
      (∃ s1, registerAll c rs1 Registry.empty = .ok s1)) ∧
    (∀ s s1, registerAll c rs Registry.empty = .ok s →
      registerAll c rs1 Registry.empty = .ok s1 →
      (ControllerRoles s).Perm (ControllerRoles s1) ∧
      (ControllerRoleBindings s).Perm (ControllerRoleBindings s1)) := by
  constructor
  · rw [registerAll_succeeds_iff, registerAll_succeeds_iff]
    have hn : (rs.map (fun r => r.Name)).Nodup ↔ (rs1.map (fun r => r.Name)).Nodup :=
      (hperm.map _).nodup_iff
    rw [hn]
    constructor
    · rintro ⟨h1, h2⟩
      exact ⟨fun r hr => h1 r (hperm.mem_iff.2 hr), h2⟩
    · rintro ⟨h1, h2⟩
      exact ⟨fun r hr => h1 r (hperm.mem_iff.1 hr), h2⟩
  · intro s s1 hs hs1
    obtain ⟨_, _, _, rfl⟩ := (registerAll_ok_iff c rs _ _).1 hs
    obtain ⟨_, _, _, rfl⟩ := (registerAll_ok_iff c rs1 _ _).1 hs1
    exact ⟨(hperm.map _).append_left _, (hperm.map _).append_left _⟩

theorem registerAll_perm_witness :
    [sampleRole, sampleRole2].Perm [sampleRole2, sampleRole] ∧
    (((∃ s, registerAll sampleConstants [sampleRole, sampleRole2] Registry.empty = .ok s) ↔
      (∃ s1, registerAll sampleConstants [sampleRole2, sampleRole] Registry.empty = .ok s1)) ∧
    (∀ s s1, registerAll sampleConstants [sampleRole, sampleRole2] Registry.empty = .ok s →
      registerAll sampleConstants [sampleRole2, sampleRole] Registry.empty = .ok s1 →
      (ControllerRoles s).Perm (ControllerRoles s1) ∧
      (ControllerRoleBindings s).Perm (ControllerRoleBindings s1))) :=
  ⟨List.Perm.swap _ _ _, registerAll_perm sampleConstants [sampleRole, sampleRole2]
    [sampleRole2, sampleRole] (List.Perm.swap _ _ _)⟩

/-! ## The registry produced by `init` -/

theorem Stmt.exec_ok (c : Constants) (st : Stmt) (s s1 : Registry)
    (h : st.exec c s = .ok s1) :
    s1 = { controllerRoles := s.controllerRoles ++ stmtRoles c st
           controllerRoleBindings := s.controllerRoleBindings ++ stmtBindings c st } := by
  cases st with
  | addControllerRole name rules =>
    cases hr : evalRules rules with
    | none =>
      simp only [Stmt.exec, hr] at h
      cases h
    | some rs =>
      simp only [Stmt.exec, hr] at h
      simp only [stmtRoles, stmtBindings, hr]
      obtain ⟨hp, _, b, hb, rfl⟩ := (addControllerRole_ok_iff c _ s s1).1 h
      rw [defaultBinding_of_hasPrefix c hp] at hb
      injection hb with hb
      rw [← hb]
      rfl
  | appendBinding binding =>
    cases binding with
    | none => cases h
    | some b =>
      injection h with h
      rw [← h]
      simp [stmtRoles, stmtBindings]

theorem runStmts_ok (c : Constants) (sts : List Stmt) :
    ∀ s s1 : Registry, runStmts c sts s = .ok s1 →
      s1 = { controllerRoles := s.controllerRoles ++ scriptRoles c sts
             controllerRoleBindings := s.controllerRoleBindings ++ scriptBindings c sts } := by
  induction sts with
  | nil =>
    intro s s1 h
    injection h with h
    rw [← h]
    simp [scriptRoles, scriptBindings]
  | cons st rest ih =>
    intro s s1 h
    unfold runStmts at h
    cases hst : st.exec c s with
    | error e =>
      rw [hst] at h
      cases h
    | ok s2 =>
      rw [hst] at h
      have h2 := Stmt.exec_ok c st s s2 hst
      have h3 := ih s2 s1 h
      rw [h3, h2]
      simp [scriptRoles, scriptBindings]

theorem init_ok (c : Constants) (s : Registry) (h : init c = .ok s) :
    s = { controllerRoles := scriptRoles c (initScript c)
          controllerRoleBindings := scriptBindings c (initScript c) } := by
  have := runStmts_ok c (initScript c) Registry.empty s h
  rw [this]
  simp [Registry.empty]

theorem init_role_names (c : Constants) :
    (scriptRoles c (initScript c)).map (fun r => r.Name) = initNames c := by
  rfl

theorem init_binding_list (c : Constants) :
    scriptBindings c (initScript c) =
      ((initNames c).take 6).map (expectedBinding c) ++
        expectedAdminBinding c :: ((initNames c).drop 6).map (expectedBinding c) := by
  rfl

theorem initNames_hasPrefix (c : Constants) :
    ∀ n ∈ initNames c, hasPrefix n saRolePrefix = true := by
  intro n hn
  simp only [initNames, List.mem_cons, List.mem_singleton, List.not_mem_nil, or_false] at hn
  rcases hn with h | h | h | h | h | h | h | h | h | h | h | h | h | h | h | h | h | h <;>
    (rw [h]; exact hasPrefix_append _ _)

theorem getElem?_append_cons {α : Type} (A B : List α) (x b : α) :
    ∀ i : Nat, (A ++ x :: B)[i]? = some b →
      (i < A.length ∧ b ∈ A) ∨ (i = A.length ∧ b = x) ∨ (A.length < i ∧ b ∈ B) := by
  induction A with
  | nil =>
    intro i h
    cases i with
    | zero =>
      simp only [List.nil_append, List.getElem?_cons_zero, Option.some.injEq] at h
      exact Or.inr (Or.inl ⟨rfl, h.symm⟩)
    | succ k =>
      simp only [List.nil_append, List.getElem?_cons_succ] at h
      exact Or.inr (Or.inr ⟨Nat.succ_pos _, List.getElem?_mem h⟩)
  | cons a A ih =>
    intro i h
    cases i with
    | zero =>
      simp only [List.cons_append, List.getElem?_cons_zero, Option.some.injEq] at h
      exact Or.inl ⟨Nat.succ_pos _, by rw [← h]; exact List.mem_cons_self _ _⟩
    | succ k =>
      simp only [List.cons_append, List.getElem?_cons_succ] at h
      rcases ih k h with ⟨h1, h2⟩ | ⟨h1, h2⟩ | ⟨h1, h2⟩
      · exact Or.inl ⟨Nat.succ_lt_succ h1, List.mem_cons_of_mem _ h2⟩
      · exact Or.inr (Or.inl ⟨by rw [h1]; rfl, h2⟩)
      · exact Or.inr (Or.inr ⟨Nat.succ_lt_succ h1, h2⟩)

theorem registered_iff_mem_names (roles : List ClusterRole) (x : String) :
    (∀ r ∈ roles, r.Name ≠ x) ↔ x ∉ roles.map (fun r => r.Name) := by
  constructor
  · intro h hx
    obtain ⟨r, hr, hrx⟩ := List.mem_map.1 hx
    exact h r hr hrx
  · intro h r hr hrx
    exact h (List.mem_map.2 ⟨r, hr, hrx⟩)

theorem map_defaultBinding_eq (c : Constants) (names : List String)
    (h : ∀ n ∈ names, hasPrefix n saRolePrefix = true) :
    names.map (defaultBinding c) = (names.map (expectedBinding c)).map some := by
  rw [List.map_map]
  apply List.map_congr_left
  intro n hn
  exact defaultBinding_of_hasPrefix c (h n hn)

/-- C8: in the registry produced by `init` there are 18 roles and 19
bindings; the binding at index 6 refers to `AdminRoleName` and binds it to
the service account `InfraTemplateInstanceControllerServiceAccountName` in
`DefaultOpenShiftInfraNamespace`; it sits right after the default binding of
the template-instance-controller role; every other binding is the default
binding of the role at the corresponding position; and the binding at index 6
is the only one whose role reference is not a registered role name. -/
theorem init_registry_shape (c : Constants) (s : Registry) (h : init c = .ok s)
    (hadmin : hasPrefix c.AdminRoleName saRolePrefix = false) :
    (ControllerRoles s).length = 18 ∧ (ControllerRoleBindings s).length = 19 ∧
    (∃ admin sa, (ControllerRoleBindings s)[6]? = some admin ∧
      BindingOrDie (SAs (NewClusterBinding c.AdminRoleName) c.DefaultOpenShiftInfraNamespace
        [c.InfraTemplateInstanceControllerServiceAccountName]) = some admin ∧
      admin.RoleRef.Name = c.AdminRoleName ∧ admin.Subjects = [sa] ∧
      sa.Kind = "ServiceAccount" ∧
      sa.Name = c.InfraTemplateInstanceControllerServiceAccountName ∧
      sa.Namespace = c.DefaultOpenShiftInfraNamespace) ∧
    (((ControllerRoles s)[5]?).map (fun r => r.Name)
        = some (saRolePrefix ++ c.InfraTemplateInstanceControllerServiceAccountName) ∧
      (ControllerRoleBindings s)[5]?
        = defaultBinding c (saRolePrefix ++ c.InfraTemplateInstanceControllerServiceAccountName)) ∧
    ((ControllerRoles s).take 6).map (fun r => defaultBinding c r.Name)
      = ((ControllerRoleBindings s).take 6).map some ∧
    ((ControllerRoles s).drop 6).map (fun r => defaultBinding c r.Name)
      = ((ControllerRoleBindings s).drop 7).map some ∧
    (∀ i b, (ControllerRoleBindings s)[i]? = some b →
      ((∀ r ∈ ControllerRoles s, r.Name ≠ b.RoleRef.Name) ↔ i = 6)) := by
  obtain rfl := init_ok c s h
  have hN := init_role_names c
  have hB := init_binding_list c
  have hP := initNames_hasPrefix c
  refine ⟨rfl, rfl, ?_, ⟨rfl, ?_⟩, ?_, ?_, ?_⟩
  · exact ⟨expectedAdminBinding c,
      ⟨"ServiceAccount", "", c.InfraTemplateInstanceControllerServiceAccountName,
        c.DefaultOpenShiftInfraNamespace⟩, rfl, rfl, rfl, rfl, rfl, rfl, rfl⟩
  · rw [defaultBinding_of_hasPrefix c (hasPrefix_append _ _)]
    rfl
  · show List.map (fun r => defaultBinding c r.Name) (List.take 6 (scriptRoles c (initScript c)))
      = List.map some (List.take 6 (scriptBindings c (initScript c)))
    have e1 : List.map (fun r => defaultBinding c r.Name)
        (List.take 6 (scriptRoles c (initScript c)))
        = List.map (defaultBinding c) (List.take 6 (initNames c)) := by
      rw [← hN, ← List.map_take, List.map_map]
      rfl
    have e2 : List.take 6 (scriptBindings c (initScript c))
        = List.map (expectedBinding c) (List.take 6 (initNames c)) := by
      rw [hB]
      rfl
    rw [e1, e2]
    exact map_defaultBinding_eq c _ (fun n hn => hP n (List.mem_of_mem_take hn))
  · show List.map (fun r => defaultBinding c r.Name) (List.drop 6 (scriptRoles c (initScript c)))
      = List.map some (List.drop 7 (scriptBindings c (initScript c)))
    have e1 : List.map (fun r => defaultBinding c r.Name)
        (List.drop 6 (scriptRoles c (initScript c)))
        = List.map (defaultBinding c) (List.drop 6 (initNames c)) := by
      rw [← hN, ← List.map_drop, List.map_map]
      rfl
    have e2 : List.drop 7 (scriptBindings c (initScript c))
        = List.map (expectedBinding c) (List.drop 6 (initNames c)) := by
      rw [hB]
      rfl
    rw [e1, e2]
    exact map_defaultBinding_eq c _ (fun n hn => hP n (List.mem_of_mem_drop hn))
  · intro i b hb
    show (∀ r ∈ scriptRoles c (initScript c), r.Name ≠ b.RoleRef.Name) ↔ i = 6
    rw [registered_iff_mem_names, hN]
    have hb2 : (List.map (expectedBinding c) (List.take 6 (initNames c)) ++
        expectedAdminBinding c :: List.map (expectedBinding c) (List.drop 6 (initNames c)))[i]?
        = some b := by
      rw [← hB]
      exact hb
    have hlen : (List.map (expectedBinding c) (List.take 6 (initNames c))).length = 6 := rfl
    rcases getElem?_append_cons _ _ _ _ i hb2 with ⟨h1, h2⟩ | ⟨h1, h2⟩ | ⟨h1, h2⟩
    · rw [hlen] at h1
      obtain ⟨n, hn, hnb⟩ := List.mem_map.1 h2
      have hmem : b.RoleRef.Name ∈ initNames c := by
        rw [← hnb]
        exact List.mem_of_mem_take hn
      constructor
      · intro hnot
        exact absurd hmem hnot
      · intro hi
        omega
    · rw [hlen] at h1
      constructor
      · intro _
        exact h1
      · intro _ hmem
        rw [h2] at hmem
        have := hP _ hmem
        rw [show (expectedAdminBinding c).RoleRef.Name = c.AdminRoleName from rfl, hadmin] at this
        cases this
    · rw [hlen] at h1
      obtain ⟨n, hn, hnb⟩ := List.mem_map.1 h2
      have hmem : b.RoleRef.Name ∈ initNames c := by
        rw [← hnb]
        exact List.mem_of_mem_drop hn
      constructor
      · intro hnot
        exact absurd hmem hnot
      · intro hi
        omega

theorem init_registry_shape_witness :
    init sampleConstants = .ok sampleInitRegistry ∧
    hasPrefix sampleConstants.AdminRoleName saRolePrefix = false ∧
    ((ControllerRoles sampleInitRegistry).length = 18 ∧ (ControllerRoleBindings sampleInitRegistry).length = 19 ∧
      (∃ admin sa, (ControllerRoleBindings sampleInitRegistry)[6]? = some admin ∧
        BindingOrDie (SAs (NewClusterBinding sampleConstants.AdminRoleName) sampleConstants.DefaultOpenShiftInfraNamespace
          [sampleConstants.InfraTemplateInstanceControllerServiceAccountName]) = some admin ∧
        admin.RoleRef.Name = sampleConstants.AdminRoleName ∧ admin.Subjects = [sa] ∧
        sa.Kind = "ServiceAccount" ∧
        sa.Name = sampleConstants.InfraTemplateInstanceControllerServiceAccountName ∧
        sa.Namespace = sampleConstants.DefaultOpenShiftInfraNamespace) ∧
      (((ControllerRoles sampleInitRegistry)[5]?).map (fun r => r.Name)
          = some (saRolePrefix ++ sampleConstants.InfraTemplateInstanceControllerServiceAccountName) ∧
        (ControllerRoleBindings sampleInitRegistry)[5]?
          = defaultBinding sampleConstants (saRolePrefix ++ sampleConstants.InfraTemplateInstanceControllerServiceAccountName)) ∧
      ((ControllerRoles sampleInitRegistry).take 6).map (fun r => defaultBinding sampleConstants r.Name)
        = ((ControllerRoleBindings sampleInitRegistry).take 6).map some ∧
      ((ControllerRoles sampleInitRegistry).drop 6).map (fun r => defaultBinding sampleConstants r.Name)
        = ((ControllerRoleBindings sampleInitRegistry).drop 7).map some ∧
      (∀ i b, (ControllerRoleBindings sampleInitRegistry)[i]? = some b →
        ((∀ r ∈ ControllerRoles sampleInitRegistry, r.Name ≠ b.RoleRef.Name) ↔ i = 6))) :=
  ⟨by rfl, by rfl, init_registry_shape sampleConstants sampleInitRegistry (by rfl) (by rfl)⟩

/-- C9 as stated fails on the extra binding of `init`: on the sample constants
the binding at index 6 refers to the role `admin` and has the single subject
`template-instance-controller`; the slice `name[len(saRolePrefix):]` of
`admin` is out of bounds, and neither the subject name nor the prefix followed
by the subject name is the role name.  So not every binding has as subject
name its role name with the prefix stripped. -/
theorem init_binding_subjects_counterexample :
    init sampleConstants = .ok sampleInitRegistry ∧
    (ControllerRoleBindings sampleInitRegistry)[6]? = some sampleAdminBinding ∧
    sampleAdminBinding.RoleRef.Name = "admin" ∧
    (sampleAdminBinding.Subjects.map (fun sa => sa.Name)) = ["template-instance-controller"] ∧
    sliceFrom sampleAdminBinding.RoleRef.Name saRolePrefix.length = none ∧
    saRolePrefix ++ "template-instance-controller" ≠ sampleAdminBinding.RoleRef.Name ∧
    ¬ (∀ b ∈ ControllerRoleBindings sampleInitRegistry, ∃ sa, b.Subjects = [sa] ∧
        sa.Kind = "ServiceAccount" ∧
        sa.Namespace = sampleConstants.DefaultOpenShiftInfraNamespace ∧
        sliceFrom b.RoleRef.Name saRolePrefix.length = some sa.Name) := by
  have h6 : (ControllerRoleBindings sampleInitRegistry)[6]? = some sampleAdminBinding := by rfl
  have hs : sliceFrom sampleAdminBinding.RoleRef.Name saRolePrefix.length = none := by decide
  refine ⟨by rfl, h6, rfl, rfl, hs, by decide, ?_⟩
  intro hall
  obtain ⟨sa, _, _, _, hsa⟩ := hall sampleAdminBinding (List.getElem?_mem h6)
  rw [hs] at hsa
  cases hsa

/-- C9, amended: after `init` every binding has exactly one subject, a service
account in `DefaultOpenShiftInfraNamespace`.  For every binding except the
extra one at index 6 the subject name is the bound role name with the prefix
stripped.  The extra binding refers to `AdminRoleName` and its subject is
`InfraTemplateInstanceControllerServiceAccountName`, the stripped name of the
template-instance-controller role. -/
theorem init_binding_subjects (c : Constants) (s : Registry) (h : init c = .ok s) :
    ∀ i b, (ControllerRoleBindings s)[i]? = some b →
      ∃ sa, b.Subjects = [sa] ∧ sa.Kind = "ServiceAccount" ∧
        sa.Namespace = c.DefaultOpenShiftInfraNamespace ∧
        (i ≠ 6 → sliceFrom b.RoleRef.Name saRolePrefix.length = some sa.Name ∧
          saRolePrefix ++ sa.Name = b.RoleRef.Name) ∧
        (i = 6 → b.RoleRef.Name = c.AdminRoleName ∧
          sa.Name = c.InfraTemplateInstanceControllerServiceAccountName ∧
          sliceFrom (saRolePrefix ++ c.InfraTemplateInstanceControllerServiceAccountName)
            saRolePrefix.length = some sa.Name) := by
  obtain rfl := init_ok c s h
  have hB := init_binding_list c
  have hP := initNames_hasPrefix c
  intro i b hb
  have hb2 : (List.map (expectedBinding c) (List.take 6 (initNames c)) ++
      expectedAdminBinding c :: List.map (expectedBinding c) (List.drop 6 (initNames c)))[i]?
      = some b := by
    rw [← hB]
    exact hb
  have hlen : (List.map (expectedBinding c) (List.take 6 (initNames c))).length = 6 := rfl
  have hdefault : ∀ n ∈ initNames c, ∀ k : Nat, k ≠ 6 →
      ∃ sa, (expectedBinding c n).Subjects = [sa] ∧ sa.Kind = "ServiceAccount" ∧
        sa.Namespace = c.DefaultOpenShiftInfraNamespace ∧
        (k ≠ 6 → sliceFrom (expectedBinding c n).RoleRef.Name saRolePrefix.length
            = some sa.Name ∧
          saRolePrefix ++ sa.Name = (expectedBinding c n).RoleRef.Name) ∧
        (k = 6 → (expectedBinding c n).RoleRef.Name = c.AdminRoleName ∧
          sa.Name = c.InfraTemplateInstanceControllerServiceAccountName ∧
          sliceFrom (saRolePrefix ++ c.InfraTemplateInstanceControllerServiceAccountName)
            saRolePrefix.length = some sa.Name) := by
    intro n hn k hk
    exact ⟨⟨"ServiceAccount", "", String.mk (n.data.drop saRolePrefix.length),
        c.DefaultOpenShiftInfraNamespace⟩, rfl, rfl, rfl,
      fun _ => ⟨sliceFrom_of_hasPrefix (hP n hn), append_sliced_of_hasPrefix (hP n hn)⟩,
      fun h6 => absurd h6 hk⟩
  rcases getElem?_append_cons _ _ _ _ i hb2 with ⟨h1, h2⟩ | ⟨h1, h2⟩ | ⟨h1, h2⟩
  · rw [hlen] at h1
    obtain ⟨n, hn, hnb⟩ := List.mem_map.1 h2
    rw [← hnb]
    exact hdefault n (List.mem_of_mem_take hn) i (by omega)
  · rw [hlen] at h1
    rw [h2]
    refine ⟨⟨"ServiceAccount", "", c.InfraTemplateInstanceControllerServiceAccountName,
        c.DefaultOpenShiftInfraNamespace⟩, rfl, rfl, rfl, fun h6 => absurd h1 h6, fun _ => ?_⟩
    refine ⟨rfl, rfl, ?_⟩
    rw [sliceFrom_of_hasPrefix (hasPrefix_append _ _)]
    have e := append_sliced_of_hasPrefix
      (hasPrefix_append saRolePrefix c.InfraTemplateInstanceControllerServiceAccountName)
    have e2 : (saRolePrefix ++ String.mk ((saRolePrefix ++
        c.InfraTemplateInstanceControllerServiceAccountName).data.drop saRolePrefix.length)).data
        = (saRolePrefix ++ c.InfraTemplateInstanceControllerServiceAccountName).data := by
      rw [e]
    rw [String.data_append, String.data_append] at e2
    have e3 := List.append_cancel_left e2
    exact congrArg some (String.ext e3)
  · rw [hlen] at h1
    obtain ⟨n, hn, hnb⟩ := List.mem_map.1 h2
    rw [← hnb]
    exact hdefault n (List.mem_of_mem_drop hn) i (by omega)

theorem init_binding_subjects_witness :
    init sampleConstants = .ok sampleInitRegistry ∧
    ∀ i b, (ControllerRoleBindings sampleInitRegistry)[i]? = some b →
      ∃ sa, b.Subjects = [sa] ∧ sa.Kind = "ServiceAccount" ∧
        sa.Namespace = sampleConstants.DefaultOpenShiftInfraNamespace ∧
        (i ≠ 6 → sliceFrom b.RoleRef.Name saRolePrefix.length = some sa.Name ∧
          saRolePrefix ++ sa.Name = b.RoleRef.Name) ∧
        (i = 6 → b.RoleRef.Name = sampleConstants.AdminRoleName ∧
          sa.Name = sampleConstants.InfraTemplateInstanceControllerServiceAccountName ∧
          sliceFrom
            (saRolePrefix ++ sampleConstants.InfraTemplateInstanceControllerServiceAccountName)
            saRolePrefix.length = some sa.Name) :=
  ⟨by rfl, init_binding_subjects sampleConstants sampleInitRegistry (by rfl)⟩

/-! ## Accessors -/

/-- C11: `ControllerRoles` and `ControllerRoleBindings` are idempotent and free
of side effects: in any sequence of accessor calls on any registry, every call
returns the stored sequence it reads, the same each time, and both stored
sequences are unchanged after the calls. -/
theorem accessors_idempotent (s : Registry) (calls : List Accessor) :
    (callAccessors calls s).2 = s ∧
    (callAccessors calls s).1 = calls.map (fun a =>
      match a with
      | .roles => AccessorResult.roles s.controllerRoles
      | .bindings => AccessorResult.bindings s.controllerRoleBindings) ∧
    (Accessor.call .roles s).2 = s ∧ (Accessor.call .bindings s).2 = s ∧
    (Accessor.call .roles (Accessor.call .roles s).2).1 = (Accessor.call .roles s).1 ∧
    (Accessor.call .bindings (Accessor.call .bindings s).2).1
      = (Accessor.call .bindings s).1 := by
  refine ⟨?_, ?_, rfl, rfl, rfl, rfl⟩
  · induction calls with
    | nil => rfl
    | cons a rest ih =>
      cases a <;> simpa [callAccessors, Accessor.call] using ih
  · induction calls with
    | nil => rfl
    | cons a rest ih =>
      cases a <;> simpa [callAccessors, Accessor.call, ControllerRoles,
        ControllerRoleBindings] using ih

/-! ## The system-only annotation -/

theorem mapGet_mapSet_ne (m : StringMap) (k v key : String) (h : key ≠ k) :
    mapGet (mapSet m k v) key = mapGet m key := by
  induction m with
  | nil =>
    have h2 : ¬ k = key := fun e => h e.symm
    simp [mapSet, mapGet, h2]
  | cons kv m ih =>
    obtain ⟨k1, v1⟩ := kv
    unfold mapSet
    by_cases h1 : k1 = k
    · have h2 : ¬ k1 = key := fun e => h (by rw [← e, h1])
      simp [h1, mapGet]
      rw [← h1]
      simp [h2]
    · by_cases h3 : k1 = key
      · subst h3
        simp [h, mapGet]
      · simp [h1, mapGet, h3, ih]

/-- C12: `addControllerRole` tags the stored role system-only whatever
annotations the input had.  With a nil input map the stored map is exactly the
single entry `roleSystemOnly ↦ roleIsSystemOnly`; otherwise the stored map
sends `roleSystemOnly` to `roleIsSystemOnly` and agrees with the input map on
every other key. -/
theorem addControllerRole_annotations (c : Constants) (r : ClusterRole) (s s1 : Registry)
    (h : addControllerRole c r s = .ok s1) :
    ∃ entry stored, ControllerRoles s1 = ControllerRoles s ++ [entry] ∧
      entry.Annotations = some stored ∧
      mapGet stored c.roleSystemOnly = some c.roleIsSystemOnly ∧
      (r.Annotations = none → stored = [(c.roleSystemOnly, c.roleIsSystemOnly)]) ∧
      (∀ input, r.Annotations = some input →
        ∀ key, key ≠ c.roleSystemOnly → mapGet stored key = mapGet input key) := by
  obtain ⟨_, _, b, _, rfl⟩ := (addControllerRole_ok_iff c r s s1).1 h
  cases hr : r.Annotations with
  | none =>
    refine ⟨tagSystemOnly c r, [(c.roleSystemOnly, c.roleIsSystemOnly)], rfl, ?_, ?_, ?_, ?_⟩
    · simp [tagSystemOnly, hr, mapSet]
    · simp [mapGet]
    · intro _
      rfl
    · intro input hin
      cases hin
  | some m =>
    refine ⟨tagSystemOnly c r, mapSet m c.roleSystemOnly c.roleIsSystemOnly, rfl, ?_,
      mapGet_mapSet _ _ _, ?_, ?_⟩
    · simp [tagSystemOnly, hr]
    · intro hn
      cases hn
    · intro input hin key hkey
      injection hin with hin
      rw [← hin]
      exact mapGet_mapSet_ne _ _ _ _ hkey

theorem addControllerRole_annotations_witness :
    addControllerRole sampleConstants sampleRoleAnnotated Registry.empty
      = .ok sampleRegistryAnnotated ∧
    ∃ entry stored,
      ControllerRoles sampleRegistryAnnotated = ControllerRoles Registry.empty ++ [entry] ∧
      entry.Annotations = some stored ∧
      mapGet stored sampleConstants.roleSystemOnly = some sampleConstants.roleIsSystemOnly ∧
      (sampleRoleAnnotated.Annotations = none →
        stored = [(sampleConstants.roleSystemOnly, sampleConstants.roleIsSystemOnly)]) ∧
      (∀ input, sampleRoleAnnotated.Annotations = some input →
        ∀ key, key ≠ sampleConstants.roleSystemOnly → mapGet stored key = mapGet input key) :=
  ⟨by rfl, addControllerRole_annotations sampleConstants sampleRoleAnnotated Registry.empty
    sampleRegistryAnnotated (by rfl)⟩

/-! ## Completion of `init` -/

theorem saRolePrefix_append_injective :
    Function.Injective (fun n : String => saRolePrefix ++ n) := by
  intro a b hab
  have h := congrArg String.data hab
  simp only [String.data_append] at h
  exact String.ext (List.append_cancel_left h)

/-- A script whose arguments all evaluate and whose names all carry the
prefix completes exactly when its names are pairwise distinct and not yet
registered; any abort is the duplicate-name error. -/
theorem runStmts_outcome (c : Constants) (sts : List Stmt) :
    ∀ s : Registry, (∀ st ∈ sts, stmtEvaluates st = true) →
      (∀ n ∈ scriptNames sts, hasPrefix n saRolePrefix = true) →
      ((∃ s1, runStmts c sts s = .ok s1) ↔
        ((scriptNames sts).Nodup ∧
          ∀ n ∈ scriptNames sts, ∀ e ∈ s.controllerRoles, e.Name ≠ n)) ∧
      (∀ e, runStmts c sts s = .error e → ∃ n, e.1 = .duplicateRoleName n) := by
  induction sts with
  | nil =>
    intro s _ _
    refine ⟨⟨fun _ => ⟨List.nodup_nil, fun n hn => (by cases hn)⟩, fun _ => ⟨s, rfl⟩⟩, ?_⟩
    intro e he
    cases he
  | cons st rest ih =>
    intro s hev hpre
    have hevr : ∀ st1 ∈ rest, stmtEvaluates st1 = true :=
      fun st1 h1 => hev st1 (List.mem_cons_of_mem _ h1)
    cases st with
    | appendBinding binding =>
      have hb := hev _ (List.mem_cons_self _ _)
      cases binding with
      | none => cases hb
      | some b =>
        have hrun : runStmts c (Stmt.appendBinding (some b) :: rest) s
            = runStmts c rest
                { s with controllerRoleBindings := s.controllerRoleBindings ++ [b] } := rfl
        rw [hrun]
        exact ih _ hevr hpre
    | addControllerRole name rules =>
      have hb := hev _ (List.mem_cons_self _ _)
      have hp : hasPrefix name saRolePrefix = true := hpre name (List.mem_cons_self _ _)
      have hprer : ∀ n ∈ scriptNames rest, hasPrefix n saRolePrefix = true :=
        fun n hn => hpre n (List.mem_cons_of_mem _ hn)
      cases hr : evalRules rules with
      | none =>
        simp only [stmtEvaluates, hr, Option.isSome_none] at hb
        cases hb
      | some rs =>
        have hexec : (Stmt.addControllerRole name rules).exec c s
            = addControllerRole c { Name := name, Annotations := none, Rules := rs } s := by
          simp only [Stmt.exec, hr]
        show ((∃ s1, runStmts c (Stmt.addControllerRole name rules :: rest) s = .ok s1) ↔
            ((name :: scriptNames rest).Nodup ∧
              ∀ n ∈ name :: scriptNames rest, ∀ e ∈ s.controllerRoles, e.Name ≠ n)) ∧
          (∀ e, runStmts c (Stmt.addControllerRole name rules :: rest) s = .error e →
            ∃ n, e.1 = .duplicateRoleName n)
        unfold runStmts
        rw [hexec]
        by_cases hd : alreadyRegistered name s.controllerRoles = true
        · have herr := (addControllerRole_error_iff c
            { Name := name, Annotations := none, Rules := rs } s
            (.duplicateRoleName name, s)).2 (Or.inr ⟨hp, hd, rfl⟩)
          rw [herr]
          obtain ⟨e0, he0, hn0⟩ := (alreadyRegistered_iff _ _).1 hd
          refine ⟨⟨?_, ?_⟩, ?_⟩
          · rintro ⟨s1, hs1⟩
            cases hs1
          · rintro ⟨_, hne⟩
            exact absurd hn0 (hne name (List.mem_cons_self _ _) e0 he0)
          · intro e he
            injection he with he
            exact ⟨name, by rw [← he]⟩
        · simp only [Bool.not_eq_true] at hd
          have hok := (addControllerRole_ok_iff c
            { Name := name, Annotations := none, Rules := rs } s _).2
            ⟨hp, hd, _, defaultBinding_of_hasPrefix c hp, rfl⟩
          rw [hok]
          have hnot : ∀ e ∈ s.controllerRoles, e.Name ≠ name := by
            intro e he hname
            rw [(alreadyRegistered_iff _ _).2 ⟨e, he, hname⟩] at hd
            cases hd
          obtain ⟨ih1, ih2⟩ := ih
            { controllerRoles := s.controllerRoles ++
                [tagSystemOnly c { Name := name, Annotations := none, Rules := rs }]
              controllerRoleBindings := s.controllerRoleBindings ++
                [{ Name := name
                   Subjects := [{ Kind := "ServiceAccount", APIGroup := "",
                                  Name := String.mk (name.data.drop saRolePrefix.length),
                                  Namespace := c.DefaultOpenShiftInfraNamespace }]
                   RoleRef := { APIGroup := "rbac.authorization.k8s.io",
                                Kind := "ClusterRole", Name := name } }] }
            hevr hprer
          refine ⟨?_, ih2⟩
          show (∃ s1, runStmts c rest _ = .ok s1) ↔ _
          rw [ih1]
          simp only [List.nodup_cons, List.mem_cons, List.mem_append, List.mem_singleton,
            List.not_mem_nil, or_false]
          constructor
          · rintro ⟨h1, h2⟩
            refine ⟨⟨?_, h1⟩, ?_⟩
            · intro hmem
              exact h2 name hmem _ (Or.inr rfl) rfl
            · rintro n (rfl | hn) e he
              · exact hnot e he
              · exact h2 n hn e (Or.inl he)
          · rintro ⟨⟨h1, h2⟩, h3⟩
            refine ⟨h2, ?_⟩
            rintro n hn e (he | rfl)
            · exact h3 n (Or.inr hn) e he
            · intro hname
              exact h1 (by rw [← hname] at hn; exact hn)

theorem initScript_names (c : Constants) :
    scriptNames (initScript c) = (initServiceAccountNames c).map (fun n => saRolePrefix ++ n) := by
  rfl

theorem initScript_evaluates (c : Constants) :
    ∀ st ∈ initScript c, stmtEvaluates st = true := by
  have h : (initScript c).all stmtEvaluates = true := by rfl
  exact fun st hst => List.all_eq_true.1 h st hst

theorem initScript_names_hasPrefix (c : Constants) :
    ∀ n ∈ scriptNames (initScript c), hasPrefix n saRolePrefix = true := by
  intro n hn
  rw [initScript_names] at hn
  obtain ⟨m, _, rfl⟩ := List.mem_map.1 hn
  exact hasPrefix_append _ _

theorem init_ok_iff_nodup (c : Constants) :
    (∃ s, init c = .ok s) ↔ (initServiceAccountNames c).Nodup := by
  have h := (runStmts_outcome c (initScript c) Registry.empty (initScript_evaluates c)
    (initScript_names_hasPrefix c)).1
  have h2 : (∃ s, init c = .ok s) ↔ (∃ s, runStmts c (initScript c) Registry.empty = .ok s) :=
    Iff.rfl
  rw [h2, h, initScript_names, List.nodup_map_iff saRolePrefix_append_injective]
  constructor
  · exact fun hh => hh.1
  · exact fun hh => ⟨hh, fun _ _ e he => (by cases he)⟩

theorem init_error_duplicate (c : Constants) (e : Failure × Registry)
    (h : init c = .error e) : ∃ n, e.1 = .duplicateRoleName n :=
  (runStmts_outcome c (initScript c) Registry.empty (initScript_evaluates c)
    (initScript_names_hasPrefix c)).2 e h

/-- C13: running `init` from the empty registry never ends in the prefix
failure, every name it registers being `saRolePrefix` followed by a
service-account-name constant; it ends in no duplicate failure exactly when
the 18 constants are pairwise distinct, and exactly then it completes with all
18 roles registered. -/
theorem init_completes_iff (c : Constants) :
    (scriptNames (initScript c)
        = (initServiceAccountNames c).map (fun n => saRolePrefix ++ n) ∧
      (initServiceAccountNames c).length = 18) ∧
    (∀ e n, init c = .error e → e.1 ≠ .invalidRoleName n) ∧
    ((∀ e n, init c = .error e → e.1 ≠ .duplicateRoleName n) ↔
      (initServiceAccountNames c).Nodup) ∧
    ((∃ s, init c = .ok s ∧ (ControllerRoles s).length = 18) ↔
      (initServiceAccountNames c).Nodup) := by
  refine ⟨⟨rfl, rfl⟩, ?_, ?_, ?_⟩
  · intro e n he hinv
    obtain ⟨m, hm⟩ := init_error_duplicate c e he
    rw [hm] at hinv
    cases hinv
  · rw [← init_ok_iff_nodup]
    constructor
    · intro hno
      cases hi : init c with
      | ok s => exact ⟨s, rfl⟩
      | error e =>
        obtain ⟨m, hm⟩ := init_error_duplicate c e hi
        exact absurd hm (hno e m hi)
    · rintro ⟨s, hs⟩ e n he
      rw [hs] at he
      cases he
  · rw [← init_ok_iff_nodup]
    constructor
    · rintro ⟨s, hs, _⟩
      exact ⟨s, hs⟩
    · rintro ⟨s, hs⟩
      refine ⟨s, hs, ?_⟩
      obtain rfl := init_ok c s hs
      rfl

/-! ## The subject-name slice -/

theorem utf8ByteSize_append_le (p x : String) : p.utf8ByteSize ≤ (p ++ x).utf8ByteSize := by
  have h : (p ++ x).utf8ByteSize = p.utf8ByteSize + x.utf8ByteSize := by
    show String.utf8ByteSize (String.mk (p.data ++ x.data)) = _
    rw [String.utf8ByteSize_mk, String.utf8Len_append]
    rfl
  omega

/-- C14: for a role whose name passes the prefix check the slice
`r.Name[len(saRolePrefix):]` is within bounds, in characters and in bytes,
and it round-trips: `saRolePrefix` followed by the subject name of the default
binding is `r.Name`. -/
theorem slice_in_bounds (c : Constants) (r : ClusterRole)
    (h : hasPrefix r.Name saRolePrefix = true) :
    saRolePrefix.length ≤ r.Name.length ∧
    saRolePrefix.utf8ByteSize ≤ r.Name.utf8ByteSize ∧
    ∃ b sa, sliceFrom r.Name saRolePrefix.length = some sa.Name ∧
      defaultBinding c r.Name = some b ∧ b.Subjects = [sa] ∧
      saRolePrefix ++ sa.Name = r.Name := by
  have hrt := append_sliced_of_hasPrefix h
  refine ⟨?_, ?_, expectedBinding c r.Name,
    ⟨"ServiceAccount", "", String.mk (r.Name.data.drop saRolePrefix.length),
      c.DefaultOpenShiftInfraNamespace⟩,
    sliceFrom_of_hasPrefix h, defaultBinding_of_hasPrefix c h, rfl, hrt⟩
  · unfold hasPrefix at h
    simp only [Bool.and_eq_true, decide_eq_true_eq] at h
    exact h.1
  · have hle := utf8ByteSize_append_le saRolePrefix
      (String.mk (r.Name.data.drop saRolePrefix.length))
    rw [hrt] at hle
    exact hle

theorem slice_in_bounds_witness :
    hasPrefix sampleRole.Name saRolePrefix = true ∧
    (saRolePrefix.length ≤ sampleRole.Name.length ∧
    saRolePrefix.utf8ByteSize ≤ sampleRole.Name.utf8ByteSize ∧
    ∃ b sa, sliceFrom sampleRole.Name saRolePrefix.length = some sa.Name ∧
      defaultBinding sampleConstants sampleRole.Name = some b ∧ b.Subjects = [sa] ∧
      saRolePrefix ++ sa.Name = sampleRole.Name) :=
  ⟨by rfl, slice_in_bounds sampleConstants sampleRole (by rfl)⟩

/-! ## The two failure kinds -/

/-- C15: on a registry reachable by successful `addControllerRole` calls no
role both lacks the prefix and has an already registered name, so every
rejected registration has exactly one of the two causes and reports it; on an
arbitrary registry where both hold, the prefix failure is the one reported. -/
theorem failure_kinds_exclusive (c : Constants) (s : Registry) (h : Reachable c s)
    (r : ClusterRole) :
    ¬ (hasPrefix r.Name saRolePrefix = false ∧ ∃ e ∈ ControllerRoles s, e.Name = r.Name) ∧
    (∀ e, addControllerRole c r s = .error e →
      (e.1 = .invalidRoleName r.Name ∧ hasPrefix r.Name saRolePrefix = false ∧
        ¬ ∃ e1 ∈ ControllerRoles s, e1.Name = r.Name) ∨
      (e.1 = .duplicateRoleName r.Name ∧ hasPrefix r.Name saRolePrefix = true ∧
        ∃ e1 ∈ ControllerRoles s, e1.Name = r.Name)) ∧
    (∀ (s0 : Registry) (r0 : ClusterRole), hasPrefix r0.Name saRolePrefix = false →
      (∃ e ∈ ControllerRoles s0, e.Name = r0.Name) →
      addControllerRole c r0 s0 = .error (.invalidRoleName r0.Name, s0)) := by
  have hexcl : ¬ (hasPrefix r.Name saRolePrefix = false ∧
      ∃ e ∈ ControllerRoles s, e.Name = r.Name) := by
    rintro ⟨hp, e, he, hname⟩
    have := h.withExtra.roles_hasPrefix e he
    rw [hname, hp] at this
    cases this
  refine ⟨hexcl, ?_, ?_⟩
  · intro e he
    rcases (addControllerRole_error_iff c r s e).1 he with ⟨hp, hf⟩ | ⟨hp, hd, hf⟩
    · exact Or.inl ⟨by rw [hf], hp, fun hreg => hexcl ⟨hp, hreg⟩⟩
    · exact Or.inr ⟨by rw [hf], hp, (alreadyRegistered_iff _ _).1 hd⟩
  · intro s0 r0 hp _
    exact (addControllerRole_error_iff c r0 s0 _).2 (Or.inl ⟨hp, rfl⟩)

theorem failure_kinds_exclusive_witness :
    Reachable sampleConstants sampleRegistry2 ∧
    addControllerRole sampleConstants { Name := "admin", Annotations := none, Rules := [] }
        sampleRegistryUnreachable
      = .error (.invalidRoleName "admin", sampleRegistryUnreachable) ∧
    (¬ (hasPrefix sampleRole.Name saRolePrefix = false ∧
        ∃ e ∈ ControllerRoles sampleRegistry2, e.Name = sampleRole.Name) ∧
    (∀ e, addControllerRole sampleConstants sampleRole sampleRegistry2 = .error e →
      (e.1 = .invalidRoleName sampleRole.Name ∧ hasPrefix sampleRole.Name saRolePrefix = false ∧
        ¬ ∃ e1 ∈ ControllerRoles sampleRegistry2, e1.Name = sampleRole.Name) ∨
      (e.1 = .duplicateRoleName sampleRole.Name ∧
        hasPrefix sampleRole.Name saRolePrefix = true ∧
        ∃ e1 ∈ ControllerRoles sampleRegistry2, e1.Name = sampleRole.Name)) ∧
    (∀ (s0 : Registry) (r0 : ClusterRole), hasPrefix r0.Name saRolePrefix = false →
      (∃ e ∈ ControllerRoles s0, e.Name = r0.Name) →
      addControllerRole sampleConstants r0 s0 = .error (.invalidRoleName r0.Name, s0))) :=
  ⟨@Reachable.add sampleConstants sampleRegistry sampleRegistry2 sampleRole2
      (@Reachable.add sampleConstants Registry.empty sampleRegistry sampleRole .empty (by rfl))
      (by rfl),
   by rfl,
   failure_kinds_exclusive sampleConstants sampleRegistry2
    (@Reachable.add sampleConstants sampleRegistry sampleRegistry2 sampleRole2
      (@Reachable.add sampleConstants Registry.empty sampleRegistry sampleRole .empty (by rfl))
      (by rfl)) sampleRole⟩

/-! ## The bare prefix as a name -/

/-- C16: a role named exactly `saRolePrefix` passes the prefix check; on a
registry without that name `addControllerRole` accepts it and appends a
default binding whose service-account subject has the empty name. -/
theorem bare_prefix_accepted (c : Constants) (s : Registry) (annotations : Option StringMap)
    (rules : List PolicyRule) (h : ∀ e ∈ ControllerRoles s, e.Name ≠ saRolePrefix) :
    hasPrefix saRolePrefix saRolePrefix = true ∧
    ∃ s1 b sa,
      addControllerRole c { Name := saRolePrefix, Annotations := annotations, Rules := rules } s
        = .ok s1 ∧
      (ControllerRoles s1).map (fun r => r.Name)
        = (ControllerRoles s).map (fun r => r.Name) ++ [saRolePrefix] ∧
      ControllerRoleBindings s1 = ControllerRoleBindings s ++ [b] ∧
      b.RoleRef.Name = saRolePrefix ∧ b.Subjects = [sa] ∧
      sa.Kind = "ServiceAccount" ∧ sa.Name = "" ∧
      sa.Namespace = c.DefaultOpenShiftInfraNamespace := by
  have hp : hasPrefix saRolePrefix saRolePrefix = true := by decide
  have hd : alreadyRegistered saRolePrefix s.controllerRoles = false := by
    by_contra hd
    simp only [Bool.not_eq_false] at hd
    obtain ⟨e, he, hname⟩ := (alreadyRegistered_iff _ _).1 hd
    exact h e he hname
  have hempty : String.mk (saRolePrefix.data.drop saRolePrefix.length) = "" := by decide
  have hok := (addControllerRole_ok_iff c
    { Name := saRolePrefix, Annotations := annotations, Rules := rules } s _).2
    ⟨hp, hd, _, defaultBinding_of_hasPrefix c hp, rfl⟩
  refine ⟨hp, _, _, ⟨"ServiceAccount", "", String.mk (saRolePrefix.data.drop saRolePrefix.length),
    c.DefaultOpenShiftInfraNamespace⟩, hok, ?_, rfl, rfl, rfl, rfl, hempty, rfl⟩
  simp [ControllerRoles, tagSystemOnly_Name]

theorem bare_prefix_accepted_witness :
    (∀ e ∈ ControllerRoles Registry.empty, e.Name ≠ saRolePrefix) ∧
    (hasPrefix saRolePrefix saRolePrefix = true ∧
    ∃ s1 b sa,
      addControllerRole sampleConstants
          { Name := saRolePrefix, Annotations := sampleRoleBare.Annotations,
            Rules := sampleRoleBare.Rules } Registry.empty
        = .ok s1 ∧
      (ControllerRoles s1).map (fun r => r.Name)
        = (ControllerRoles Registry.empty).map (fun r => r.Name) ++ [saRolePrefix] ∧
      ControllerRoleBindings s1 = ControllerRoleBindings Registry.empty ++ [b] ∧
      b.RoleRef.Name = saRolePrefix ∧ b.Subjects = [sa] ∧
      sa.Kind = "ServiceAccount" ∧ sa.Name = "" ∧
      sa.Namespace = sampleConstants.DefaultOpenShiftInfraNamespace) :=
  ⟨fun e he => (by cases he),
   bare_prefix_accepted sampleConstants Registry.empty sampleRoleBare.Annotations
    sampleRoleBare.Rules (fun e he => (by cases he))⟩

/-! ## Completeness of the rules of `init` -/

theorem ruleComplete_iff (r : PolicyRule) :
    ruleComplete r = true ↔ r.Verbs ≠ [] ∧ r.APIGroups ≠ [] ∧ r.Resources ≠ [] := by
  simp [ruleComplete, List.isEmpty_iff, and_assoc]

theorem initScript_rulesComplete (c : Constants) :
    (initScript c).all stmtRulesComplete = true := by
  rfl

theorem init_roles_rulesComplete (c : Constants) :
    (scriptRoles c (initScript c)).all
      (fun r => !r.Rules.isEmpty && r.Rules.all ruleComplete) = true := by
  rfl

/-- C17: every rule of every role `init` registers, the rule of `eventsRule`
included, has at least one verb, one API group and one resource, so each
`RuleOrDie` call of the script returns a rule and `init` never ends in a
panic; and every registered role has at least one rule. -/
theorem init_rules_complete (c : Constants) :
    (∃ rule, eventsRule c = some rule ∧
      rule.Verbs ≠ [] ∧ rule.APIGroups ≠ [] ∧ rule.Resources ≠ []) ∧
    (∀ name rules, Stmt.addControllerRole name rules ∈ initScript c →
      rules ≠ [] ∧ ∀ r ∈ rules, ∃ rule, r = some rule ∧
        rule.Verbs ≠ [] ∧ rule.APIGroups ≠ [] ∧ rule.Resources ≠ []) ∧
    (∀ e, init c = .error e → e.1 ≠ .runtimePanic) ∧
    (∀ s, init c = .ok s → ∀ r ∈ ControllerRoles s,
      r.Rules ≠ [] ∧ ∀ rule ∈ r.Rules,
        rule.Verbs ≠ [] ∧ rule.APIGroups ≠ [] ∧ rule.Resources ≠ []) := by
  refine ⟨?_, ?_, ?_, ?_⟩
  · exact ⟨Resources (Groups (NewRule ["create", "update", "patch"]) [c.kapiGroup]) ["events"],
      rfl, (ruleComplete_iff _).1 rfl⟩
  · intro name rules hmem
    have h := List.all_eq_true.1 (initScript_rulesComplete c) _ hmem
    simp only [stmtRulesComplete, Bool.and_eq_true, Bool.not_eq_true', List.isEmpty_eq_false,
      List.all_eq_true] at h
    refine ⟨h.1, ?_⟩
    intro r hr
    have hr2 := h.2 r hr
    cases r with
    | none => cases hr2
    | some rule => exact ⟨rule, rfl, (ruleComplete_iff rule).1 hr2⟩
  · intro e he hpanic
    obtain ⟨n, hn⟩ := init_error_duplicate c e he
    rw [hn] at hpanic
    cases hpanic
  · intro s hs r hr
    obtain rfl := init_ok c s hs
    have h := List.all_eq_true.1 (init_roles_rulesComplete c) r hr
    simp only [Bool.and_eq_true, Bool.not_eq_true', List.isEmpty_eq_false,
      List.all_eq_true] at h
    exact ⟨h.1, fun rule hrule => (ruleComplete_iff rule).1 (h.2 rule hrule)⟩

end BootstrapPolicy
